import Mathlib

/-!
Verification of the ejudge integration layer of the `ejapp` repository
(`backend/ejudge/models.py`, `backend/ejudge/client.py`,
`backend/ejudge/mocks.py`).

The Python code is shallowly embedded:

* pydantic models become Lean structures; pydantic construction/validation
  (field constraints from `Annotated[...]` metadata, the
  `str_strip_whitespace=True` base config, and the `@model_validator`
  methods, in source order) becomes an explicit `validate` function
  returning `Except String _`;
* JSON values are a small inductive `Json` (the replies exchanged by the
  client and the mock transport only use objects of scalars);
* the async HTTP layer becomes explicit data flow: the outcome of one
  network call is a `TransportOutcome` value, and a pluggable transport is
  a function `OutboundRequest → TransportOutcome` (the mock harness of
  `mocks.py` is one such function);
* Python exceptions become `Except` errors; `EjudgeClientError` and its
  subclass `EjudgeReplyError` become the two constructors of
  `ClientFailure`;
* `UUID` and `IPvAnyAddress` fields are abstracted as their canonical
  string form (no claim depends on uuid/ip parsing), and `bytes` payloads
  are abstracted as `List Nat`;
* Python `str.strip` / pydantic whitespace stripping is embedded as
  `strip` below (ASCII whitespace approximates the Unicode whitespace
  classes; no claim depends on non-ASCII whitespace).
-/

namespace Ejudge

/-- Remove leading and trailing whitespace characters from a character
list.  This is the embedding of Python `str.strip()` and of pydantic's
`str_strip_whitespace=True` normalization. -/
def stripChars (l : List Char) : List Char :=
  (((l.dropWhile Char.isWhitespace).reverse.dropWhile Char.isWhitespace)).reverse

/-- Embedding of Python `str.strip()` on strings. -/
def strip (s : String) : String :=
  String.mk (stripChars s.data)

theorem dropWhile_head_false {p : Char → Bool} {l : List Char} {c : Char}
    (h : (l.dropWhile p).head? = some c) : p c = false := by
  induction l with
  | nil => simp [List.dropWhile] at h
  | cons a l ih =>
    by_cases hp : p a
    · simp [List.dropWhile, hp] at h
      exact ih h
    · simp [List.dropWhile, hp] at h
      subst h
      simpa using hp

theorem dropWhile_eq_self_of_head {p : Char → Bool} {l : List Char}
    (h : ∀ c, l.head? = some c → p c = false) : l.dropWhile p = l := by
  cases l with
  | nil => rfl
  | cons a l =>
    have ha : p a = false := h a rfl
    simp [List.dropWhile, ha]

theorem dropWhile_head_drop {p : Char → Bool} (l : List Char) :
    ((l.dropWhile p).dropWhile p) = l.dropWhile p := by
  apply dropWhile_eq_self_of_head
  intro c hc
  exact dropWhile_head_false hc

theorem dropWhile_is_suffix {p : Char → Bool} (l : List Char) :
    ∃ t, l = t ++ l.dropWhile p := by
  induction l with
  | nil => exact ⟨[], rfl⟩
  | cons a l ih =>
    by_cases hp : p a
    · obtain ⟨t, ht⟩ := ih
      exact ⟨a :: t, by simp [List.dropWhile, hp, ← ht]⟩
    · exact ⟨[], by simp [List.dropWhile, hp]⟩

theorem stripChars_head_false {p : Char → Bool} {l : List Char} {c : Char}
    (hp : p = Char.isWhitespace)
    (h : (stripChars l).head? = some c) : p c = false := by
  subst hp
  unfold stripChars at h
  obtain ⟨t, ht⟩ := dropWhile_is_suffix (p := Char.isWhitespace)
      ((l.dropWhile Char.isWhitespace).reverse)
  set m := l.dropWhile Char.isWhitespace with hm
  set d := m.reverse.dropWhile Char.isWhitespace with hd
  have hmrev : m = d.reverse ++ t.reverse := by
    have := congrArg List.reverse ht
    simpa using this
  rcases hdr : d.reverse with _ | ⟨x, xs⟩
  · rw [hdr] at h
    simp at h
  · rw [hdr] at h
    simp at h
    have hhead : m.head? = some c := by
      rw [hmrev, hdr]
      simp [h]
    exact dropWhile_head_false (l := l) (by simpa [hm] using hhead)

theorem stripChars_idem (l : List Char) : stripChars (stripChars l) = stripChars l := by
  have h1 : (stripChars l).dropWhile Char.isWhitespace = stripChars l := by
    apply dropWhile_eq_self_of_head
    intro c hc
    exact stripChars_head_false rfl hc
  have h2 : (stripChars l).reverse.dropWhile Char.isWhitespace = (stripChars l).reverse := by
    apply dropWhile_eq_self_of_head
    intro c hc
    unfold stripChars at hc
    simp only [List.reverse_reverse] at hc
    exact dropWhile_head_false hc
  calc stripChars (stripChars l)
      = ((((stripChars l).dropWhile Char.isWhitespace).reverse.dropWhile
          Char.isWhitespace)).reverse := rfl
    _ = stripChars l := by rw [h1, h2]; simp

theorem strip_idem (s : String) : strip (strip s) = strip s := by
  unfold strip
  rw [show (String.mk (stripChars s.data)).data = stripChars s.data from rfl]
  rw [stripChars_idem]

/-- Minimal JSON value model: scalars, arrays (used by the list-typed
fields of `UserProfile`) and objects. -/
inductive Json where
  | null : Json
  | jbool : Bool → Json
  | jnum : Int → Json
  | jstr : String → Json
  | jarr : List Json → Json
  | jobj : List (String × Json) → Json

/-- Embeds `extra='forbid'` in `EjudgeBaseModel.model_config`: every key of the
incoming object must be a declared field name. -/
def keysAllowed (fields : List (String × Json)) (allowed : List String) : Bool :=
  fields.all (fun kv => allowed.contains kv.1)

/-- Read an optional field: a missing key and an explicit JSON `null` both
produce the pydantic default `None`. -/
def optField (fields : List (String × Json)) (k : String) : Option Json :=
  match List.lookup k fields with
  | none => none
  | some Json.null => none
  | some j => some j

/-- Validate an optional `int | None` field. -/
def parseOptIntField (fields : List (String × Json)) (k : String) : Except String (Option Int) :=
  match optField fields k with
  | none => Except.ok none
  | some (Json.jnum n) => Except.ok (some n)
  | some _ => Except.error (k ++ " must be an integer")

/-- Validate an optional `str | None` field; `str_strip_whitespace=True`
trims the accepted value. -/
def parseOptStrField (fields : List (String × Json)) (k : String) : Except String (Option String) :=
  match optField fields k with
  | none => Except.ok none
  | some (Json.jstr s) => Except.ok (some (strip s))
  | some _ => Except.error (k ++ " must be a string")

/-- Embeds `EjudgeError` (models.py): standard error block embedded in replies. -/
structure EjudgeError where
  num : Int
  symbol : String
  message : Option String
deriving DecidableEq

/-- Validation of an `EjudgeError` block (`num: int`, `symbol: str`,
optional `message`, extra keys forbidden). -/
def EjudgeError.validate : Json → Except String EjudgeError
  | Json.jobj fields =>
    if keysAllowed fields ["num", "symbol", "message"] = false then
      Except.error "unknown field in EjudgeError"
    else
      match List.lookup "num" fields, List.lookup "symbol" fields with
      | some (Json.jnum n), some (Json.jstr s) =>
        match parseOptStrField fields "message" with
        | Except.error e => Except.error e
        | Except.ok msg => Except.ok { num := n, symbol := strip s, message := msg }
      | _, _ => Except.error "EjudgeError requires num and symbol"
  | _ => Except.error "EjudgeError must be an object"

/-- Embeds `EjudgeReply` (models.py): generic wrapper for ejudge reply envelopes,
parameterized by the action-specific result payload type. -/
structure Reply (ρ : Type) where
  ok : Bool
  action : String
  server_time : Option Int
  reply_id : Option Int
  request_id : Option Int
  result : Option ρ
  error : Option EjudgeError

/-- Validation of a reply envelope: `ok` and `action` are required, the
remaining fields optional, extra keys forbidden; the `result` payload is
validated by the action-specific validator. -/
def validateReply {ρ : Type} (validateResult : Json → Except String ρ) :
    Json → Except String (Reply ρ)
  | Json.jobj fields =>
    if keysAllowed fields
        ["ok", "action", "server_time", "reply_id", "request_id", "result", "error"] = false then
      Except.error "unknown field in reply envelope"
    else
      match List.lookup "ok" fields, List.lookup "action" fields with
      | some (Json.jbool b), some (Json.jstr a) =>
        match parseOptIntField fields "server_time" with
        | Except.error e => Except.error e
        | Except.ok st =>
          match parseOptIntField fields "reply_id" with
          | Except.error e => Except.error e
          | Except.ok rid =>
            match parseOptIntField fields "request_id" with
            | Except.error e => Except.error e
            | Except.ok qid =>
              match (match optField fields "result" with
                     | none => Except.ok none
                     | some j => Except.map some (validateResult j)) with
              | Except.error e => Except.error e
              | Except.ok res =>
                match (match optField fields "error" with
                       | none => Except.ok none
                       | some j => Except.map some (EjudgeError.validate j)) with
                | Except.error e => Except.error e
                | Except.ok err =>
                  Except.ok { ok := b, action := strip a, server_time := st,
                              reply_id := rid, request_id := qid, result := res,
                              error := err }
      | _, _ => Except.error "reply envelope requires ok and action"
  | _ => Except.error "reply must be an object"

/-- Embeds `SubmitRunResult` (models.py): successful payload of `submit-run`.
The optional `run_uuid` UUID is abstracted as its canonical string. -/
structure SubmitRunResult where
  run_id : Int
  run_uuid : Option String
deriving DecidableEq

/-- Validation of `SubmitRunResult`: `run_id` is a required positive
integer (`RunId = int, gt=0`); `run_uuid` optional (UUID parse abstracted). -/
def SubmitRunResult.validate : Json → Except String SubmitRunResult
  | Json.jobj fields =>
    if keysAllowed fields ["run_id", "run_uuid"] = false then
      Except.error "unknown field in SubmitRunResult"
    else
      match List.lookup "run_id" fields with
      | some (Json.jnum n) =>
        if 0 < n then
          match optField fields "run_uuid" with
          | none => Except.ok { run_id := n, run_uuid := none }
          | some (Json.jstr u) => Except.ok { run_id := n, run_uuid := some u }
          | some _ => Except.error "run_uuid must be a string"
        else Except.error "run_id must be greater than 0"
      | _ => Except.error "SubmitRunResult requires run_id"
  | _ => Except.error "SubmitRunResult must be an object"

/-- Embeds `NotificationKind` (models.py): serialization strategies for the
`notify_queue` identifier. -/
inductive NotificationKind where
  | str : NotificationKind
  | u64 : NotificationKind
  | uuid : NotificationKind
  | ulid : NotificationKind
deriving DecidableEq

/-- Wire form of a `NotificationKind` literal. -/
def NotificationKind.wire : NotificationKind → String
  | NotificationKind.str => "str"
  | NotificationKind.u64 => "u64"
  | NotificationKind.uuid => "uuid"
  | NotificationKind.ulid => "ulid"

/-- Embeds `NotificationTarget` (models.py): target queue descriptor. -/
structure NotificationTarget where
  driver : Int
  kind : NotificationKind
  queue : String
deriving DecidableEq

/-- Construction of a `NotificationTarget`: field constraints
(`driver: gt=0`, `queue: min_length=1, max_length=128` checked after the
base-config whitespace strip), then the `_normalize_queue` model validator
(strip again and reject an empty queue). -/
def NotificationTarget.validate (t : NotificationTarget) : Except String NotificationTarget :=
  if t.driver ≤ 0 then Except.error "driver must be greater than 0"
  else
    let q := strip t.queue
    if q.length < 1 then Except.error "queue must have at least 1 character"
    else if 128 < q.length then Except.error "queue must have at most 128 characters"
    else
      let q2 := strip q
      if q2 = "" then Except.error "Notification queue identifier cannot be empty."
      else Except.ok { driver := t.driver, kind := t.kind, queue := q2 }

/-- Source bytes are abstracted as a byte list. -/
def Bytes : Type := List Nat

/-- Embeds `SubmitRunRequest` (models.py), minus the frozen `action` literal
(which is the constant string `"submit-run"`).  `problem_uuid` and
`sender_ip` are abstracted as strings; `lang_id : int | str` is a sum. -/
structure SubmitRunRequest where
  contest_id : Int
  sender_user_login : Option String := none
  sender_user_id : Option Int := none
  sender_ip : Option String := none
  sender_ssl_flag : Option Bool := none
  problem_uuid : Option String := none
  problem_name : Option String := none
  problem : Option Int := none
  variant : Option Int := none
  language_name : Option String := none
  lang_id : Option (Sum Int String) := none
  eoln_type : Option Int := none
  is_visible : Option Bool := none
  file : Option Bytes := none
  text_form : Option String := none
  not_ok_is_cf : Option Bool := none
  rejudge_flag : Option Bool := none
  ext_user_kind : Option String := none
  ext_user : Option String := none
  notify_driver : Option Int := none
  notify_kind : Option NotificationKind := none
  notify_queue : Option String := none

/-- Embeds `sum(value is not None for value in [problem_uuid, problem_name, problem])`
from `_ensure_problem_selector`. -/
def problemSelectorCount (r : SubmitRunRequest) : Nat :=
  (if r.problem_uuid.isSome then 1 else 0)
    + (if r.problem_name.isSome then 1 else 0)
    + (if r.problem.isSome then 1 else 0)

/-- Field-level normalization of a `SubmitRunRequest`: the base config
strips whitespace from every string-typed value (including the `str`
branch of `lang_id : int | str`). -/
def SubmitRunRequest.stripped (r : SubmitRunRequest) : SubmitRunRequest :=
  { r with
    sender_user_login := r.sender_user_login.map strip
    problem_name := r.problem_name.map strip
    language_name := r.language_name.map strip
    lang_id := r.lang_id.map (Sum.map id strip)
    text_form := r.text_form.map strip
    ext_user_kind := r.ext_user_kind.map strip
    ext_user := r.ext_user.map strip
    notify_queue := r.notify_queue.map strip }

/-- Construction of a `SubmitRunRequest`: field constraints from the
`Annotated` metadata (`contest_id`/`sender_user_id`/`problem` positive,
`eoln_type` non-negative), whitespace stripping, then the four
`@model_validator(mode='after')` methods in source order
(`_ensure_problem_selector`, `_ensure_language_selector`,
`_ensure_source_payload`, `_ensure_notification_triplet`). -/
def SubmitRunRequest.validate (r : SubmitRunRequest) : Except String SubmitRunRequest :=
  if r.contest_id ≤ 0 then Except.error "contest_id must be greater than 0"
  else if r.sender_user_id.any (fun n => decide (n ≤ 0)) then
    Except.error "sender_user_id must be greater than 0"
  else if r.problem.any (fun n => decide (n ≤ 0)) then
    Except.error "problem must be greater than 0"
  else if r.eoln_type.any (fun n => decide (n < 0)) then
    Except.error "eoln_type must be greater than or equal to 0"
  else
    let t := r.stripped
    if problemSelectorCount t ≠ 1 then
      Except.error "Exactly one of problem_uuid, problem_name or problem must be provided."
    else if t.language_name.isNone = t.lang_id.isNone then
      Except.error "Exactly one of language_name or lang_id must be provided."
    else if t.file.isNone = t.text_form.isNone then
      Except.error "Provide either file bytes or text_form text payload."
    else if (t.notify_driver.isSome || t.notify_kind.isSome || t.notify_queue.isSome)
        && !(t.notify_driver.isSome && t.notify_kind.isSome && t.notify_queue.isSome) then
      Except.error "Notification parameters must be provided together (driver, kind, queue)."
    else Except.ok t

/-- Embeds `SubmitRunInputRequest` (models.py), minus the frozen `action` literal
(the constant `"submit-run-input"`).  `prob_id` and `lang_id` are required
`str | int` fields. -/
structure SubmitRunInputRequest where
  contest_id : Int
  sender_user_login : Option String := none
  sender_user_id : Option Int := none
  sender_ip : Option String := none
  sender_ssl_flag : Option Bool := none
  prob_id : Sum Int String
  lang_id : Sum Int String
  eoln_type : Option Int := none
  file : Option Bytes := none
  text_form : Option String := none
  file_input : Option Bytes := none
  text_form_input : Option String := none
  ext_user_kind : Option String := none
  ext_user : Option String := none
  notify_driver : Option Int := none
  notify_kind : Option NotificationKind := none
  notify_queue : Option String := none

/-- Whitespace stripping for `SubmitRunInputRequest` string fields. -/
def SubmitRunInputRequest.stripped (r : SubmitRunInputRequest) : SubmitRunInputRequest :=
  { r with
    sender_user_login := r.sender_user_login.map strip
    prob_id := Sum.map id strip r.prob_id
    lang_id := Sum.map id strip r.lang_id
    text_form := r.text_form.map strip
    text_form_input := r.text_form_input.map strip
    ext_user_kind := r.ext_user_kind.map strip
    ext_user := r.ext_user.map strip
    notify_queue := r.notify_queue.map strip }

/-- Construction of a `SubmitRunInputRequest`: field constraints,
whitespace stripping, then `_ensure_source_payload`,
`_ensure_stdin_payload` and `_ensure_notification_triplet` in order. -/
def SubmitRunInputRequest.validate (r : SubmitRunInputRequest) :
    Except String SubmitRunInputRequest :=
  if r.contest_id ≤ 0 then Except.error "contest_id must be greater than 0"
  else if r.sender_user_id.any (fun n => decide (n ≤ 0)) then
    Except.error "sender_user_id must be greater than 0"
  else if r.eoln_type.any (fun n => decide (n < 0)) then
    Except.error "eoln_type must be greater than or equal to 0"
  else
    let t := r.stripped
    if t.file.isNone = t.text_form.isNone then
      Except.error "Provide either file bytes or text_form text payload for the source code."
    else if t.file_input.isNone = t.text_form_input.isNone then
      Except.error "Provide either file_input bytes or text_form_input text payload for stdin."
    else if (t.notify_driver.isSome || t.notify_kind.isSome || t.notify_queue.isSome)
        && !(t.notify_driver.isSome && t.notify_kind.isSome && t.notify_queue.isSome) then
      Except.error "Notification parameters must be provided together (driver, kind, queue)."
    else Except.ok t

/-- Embeds `GetSubmitRequest` (models.py), minus the frozen `action` literal. -/
structure GetSubmitRequest where
  contest_id : Int
  submit_id : Int
deriving DecidableEq

/-- Construction of a `GetSubmitRequest`: `contest_id` and `submit_id`
must be positive. -/
def GetSubmitRequest.validate (r : GetSubmitRequest) : Except String GetSubmitRequest :=
  if r.contest_id ≤ 0 then Except.error "contest_id must be greater than 0"
  else if r.submit_id ≤ 0 then Except.error "submit_id must be greater than 0"
  else Except.ok r

/-- Embeds `GetUserRequest` (models.py), minus the frozen `action` literal.  The
`global_` field carries the wire alias `global`. -/
structure GetUserRequest where
  contest_id : Int
  other_user_id : Option Int := none
  other_user_login : Option String := none
  global_ : Option Bool := none
deriving DecidableEq

/-- Construction of a `GetUserRequest`: `contest_id` positive,
`other_user_id` positive when present, whitespace stripping, then the
`_ensure_selector` model validator (exactly one of `other_user_id`,
`other_user_login`). -/
def GetUserRequest.validate (r : GetUserRequest) : Except String GetUserRequest :=
  if r.contest_id ≤ 0 then Except.error "contest_id must be greater than 0"
  else if r.other_user_id.any (fun n => decide (n ≤ 0)) then
    Except.error "other_user_id must be greater than 0"
  else
    let t := { r with other_user_login := r.other_user_login.map strip }
    if t.other_user_id.isNone = t.other_user_login.isNone then
      Except.error "Exactly one of other_user_id or other_user_login must be provided."
    else Except.ok t

/-- Well-typedness of an optional `str | None` field. -/
def checkOptStr (fields : List (String × Json)) (k : String) : Bool :=
  match optField fields k with
  | none => true
  | some (Json.jstr _) => true
  | some _ => false

/-- Value of an optional `str | None` field, whitespace-stripped by the
base config. -/
def optStrOf (fields : List (String × Json)) (k : String) : Option String :=
  match optField fields k with
  | some (Json.jstr s) => some (strip s)
  | _ => none

/-- Well-typedness of an optional unconstrained `int | None` field. -/
def checkOptInt (fields : List (String × Json)) (k : String) : Bool :=
  match optField fields k with
  | none => true
  | some (Json.jnum _) => true
  | some _ => false

/-- Value of an optional `int | None` field. -/
def optIntOf (fields : List (String × Json)) (k : String) : Option Int :=
  match optField fields k with
  | some (Json.jnum n) => some n
  | _ => none

/-- Well-typedness of an optional positive (`gt=0`) integer field. -/
def checkOptPosInt (fields : List (String × Json)) (k : String) : Bool :=
  match optField fields k with
  | none => true
  | some (Json.jnum n) => decide (0 < n)
  | some _ => false

/-- Well-typedness of an optional non-negative (`ge=0`) integer field. -/
def checkOptNonNegInt (fields : List (String × Json)) (k : String) : Bool :=
  match optField fields k with
  | none => true
  | some (Json.jnum n) => decide (0 ≤ n)
  | some _ => false

/-- Well-typedness of an optional `bool | None` field. -/
def checkOptBool (fields : List (String × Json)) (k : String) : Bool :=
  match optField fields k with
  | none => true
  | some (Json.jbool _) => true
  | some _ => false

/-- Value of an optional `bool | None` field. -/
def optBoolOf (fields : List (String × Json)) (k : String) : Option Bool :=
  match optField fields k with
  | some (Json.jbool b) => some b
  | _ => none

/-- Parse a `NotificationKind` literal. -/
def kindOfString : String → Option NotificationKind
  | "str" => some NotificationKind.str
  | "u64" => some NotificationKind.u64
  | "uuid" => some NotificationKind.uuid
  | "ulid" => some NotificationKind.ulid
  | _ => none

/-- Well-typedness of an optional `NotificationKind | None` field. -/
def checkOptKind (fields : List (String × Json)) (k : String) : Bool :=
  match optField fields k with
  | none => true
  | some (Json.jstr s) => (kindOfString s).isSome
  | some _ => false

/-- Value of an optional `NotificationKind | None` field. -/
def optKindOf (fields : List (String × Json)) (k : String) : Option NotificationKind :=
  match optField fields k with
  | some (Json.jstr s) => kindOfString s
  | _ => none

/-- Run an element validator, keeping only success. -/
def decodeOpt {α : Type} (f : Json → Except String α) (j : Json) : Option α :=
  match f j with
  | Except.ok a => some a
  | Except.error _ => none

/-- Decode every element of a JSON array; `none` when any element is
invalid. -/
def decodeList {α : Type} (f : Json → Except String α) : List Json → Option (List α)
  | [] => some []
  | j :: js =>
    match decodeOpt f j with
    | none => none
    | some a =>
      match decodeList f js with
      | none => none
      | some rest => some (a :: rest)

/-- Well-typedness of an optional `list[M] | None` field. -/
def checkOptList {α : Type} (f : Json → Except String α)
    (fields : List (String × Json)) (k : String) : Bool :=
  match optField fields k with
  | none => true
  | some (Json.jarr js) => (decodeList f js).isSome
  | some _ => false

/-- Value of an optional `list[M] | None` field. -/
def optListOf {α : Type} (f : Json → Except String α)
    (fields : List (String × Json)) (k : String) : Option (List α) :=
  match optField fields k with
  | some (Json.jarr js) => decodeList f js
  | _ => none

/-- Model `UserContestState` (models.py): contest membership details;
it has no string-typed field. -/
structure UserContestState where
  contest_id : Int
  create_time : Option Int
  status : Option Int
  is_banned : Option Bool
  is_disqualified : Option Bool
  is_incomplete : Option Bool
  is_invisible : Option Bool
  is_locked : Option Bool
  is_privileged : Option Bool
  is_reg_readonly : Option Bool
  last_change_time : Option Int
  user_id : Option Int

/-- Optional-field checks of `UserContestState`. -/
def UserContestState.checkOptional (fields : List (String × Json)) : Bool :=
  checkOptInt fields "create_time" && checkOptInt fields "status"
    && checkOptBool fields "is_banned" && checkOptBool fields "is_disqualified"
    && checkOptBool fields "is_incomplete" && checkOptBool fields "is_invisible"
    && checkOptBool fields "is_locked" && checkOptBool fields "is_privileged"
    && checkOptBool fields "is_reg_readonly" && checkOptInt fields "last_change_time"
    && checkOptPosInt fields "user_id"

/-- Record built from a validated `UserContestState` object. -/
def UserContestState.extract (fields : List (String × Json)) (cid : Int) :
    UserContestState :=
  { contest_id := cid,
    create_time := optIntOf fields "create_time",
    status := optIntOf fields "status",
    is_banned := optBoolOf fields "is_banned",
    is_disqualified := optBoolOf fields "is_disqualified",
    is_incomplete := optBoolOf fields "is_incomplete",
    is_invisible := optBoolOf fields "is_invisible",
    is_locked := optBoolOf fields "is_locked",
    is_privileged := optBoolOf fields "is_privileged",
    is_reg_readonly := optBoolOf fields "is_reg_readonly",
    last_change_time := optIntOf fields "last_change_time",
    user_id := optIntOf fields "user_id" }

/-- Validation of `UserContestState`: required positive `contest_id`,
optional ints/bools, extra keys forbidden. -/
def UserContestState.validate : Json → Except String UserContestState
  | Json.jobj fields =>
    if keysAllowed fields ["contest_id", "create_time", "status", "is_banned",
        "is_disqualified", "is_incomplete", "is_invisible", "is_locked",
        "is_privileged", "is_reg_readonly", "last_change_time", "user_id"] = false then
      Except.error "unknown field in UserContestState"
    else
      match List.lookup "contest_id" fields with
      | some (Json.jnum cid) =>
        if decide (0 < cid) && UserContestState.checkOptional fields then
          Except.ok (UserContestState.extract fields cid)
        else Except.error "invalid field in UserContestState"
      | _ => Except.error "UserContestState requires contest_id"
  | _ => Except.error "UserContestState must be an object"

/-- Model `UserCookie` (models.py): active ejudge session cookie; every
field is optional. -/
structure UserCookie where
  client_key : Option String
  contest_id : Option Int
  cookie : Option String
  expire : Option Int
  ip : Option String
  is_job : Option Bool
  is_ws : Option Bool
  locale_id : Option Int
  priv_level : Option Int
  recovery : Option Bool
  role : Option Int
  ssl : Option Bool
  team_login : Option Bool
  user_id : Option Int

/-- Optional-field checks of `UserCookie`. -/
def UserCookie.checkOptional (fields : List (String × Json)) : Bool :=
  checkOptStr fields "client_key" && checkOptPosInt fields "contest_id"
    && checkOptStr fields "cookie" && checkOptInt fields "expire"
    && checkOptStr fields "ip" && checkOptBool fields "is_job"
    && checkOptBool fields "is_ws" && checkOptInt fields "locale_id"
    && checkOptInt fields "priv_level" && checkOptBool fields "recovery"
    && checkOptInt fields "role" && checkOptBool fields "ssl"
    && checkOptBool fields "team_login" && checkOptPosInt fields "user_id"

/-- Record built from a validated `UserCookie` object. -/
def UserCookie.extract (fields : List (String × Json)) : UserCookie :=
  { client_key := optStrOf fields "client_key",
    contest_id := optIntOf fields "contest_id",
    cookie := optStrOf fields "cookie",
    expire := optIntOf fields "expire",
    ip := optStrOf fields "ip",
    is_job := optBoolOf fields "is_job",
    is_ws := optBoolOf fields "is_ws",
    locale_id := optIntOf fields "locale_id",
    priv_level := optIntOf fields "priv_level",
    recovery := optBoolOf fields "recovery",
    role := optIntOf fields "role",
    ssl := optBoolOf fields "ssl",
    team_login := optBoolOf fields "team_login",
    user_id := optIntOf fields "user_id" }

/-- Validation of `UserCookie`. -/
def UserCookie.validate : Json → Except String UserCookie
  | Json.jobj fields =>
    if keysAllowed fields ["client_key", "contest_id", "cookie", "expire", "ip",
        "is_job", "is_ws", "locale_id", "priv_level", "recovery", "role", "ssl",
        "team_login", "user_id"] = false then
      Except.error "unknown field in UserCookie"
    else if UserCookie.checkOptional fields = false then
      Except.error "invalid field in UserCookie"
    else Except.ok (UserCookie.extract fields)
  | _ => Except.error "UserCookie must be an object"

/-- Model `UserInfo` (models.py): contest-specific profile fragment;
every field is optional. -/
structure UserInfo where
  contest_id : Option Int
  city : Option String
  city_en : Option String
  area : Option String
  locale_id : Option Int
  phone : Option String
  school : Option String
  grade : Option String
  user_id : Option Int

/-- Optional-field checks of `UserInfo`. -/
def UserInfo.checkOptional (fields : List (String × Json)) : Bool :=
  checkOptPosInt fields "contest_id" && checkOptStr fields "city"
    && checkOptStr fields "city_en" && checkOptStr fields "area"
    && checkOptInt fields "locale_id" && checkOptStr fields "phone"
    && checkOptStr fields "school" && checkOptStr fields "grade"
    && checkOptPosInt fields "user_id"

/-- Record built from a validated `UserInfo` object. -/
def UserInfo.extract (fields : List (String × Json)) : UserInfo :=
  { contest_id := optIntOf fields "contest_id",
    city := optStrOf fields "city",
    city_en := optStrOf fields "city_en",
    area := optStrOf fields "area",
    locale_id := optIntOf fields "locale_id",
    phone := optStrOf fields "phone",
    school := optStrOf fields "school",
    grade := optStrOf fields "grade",
    user_id := optIntOf fields "user_id" }

/-- Validation of `UserInfo`. -/
def UserInfo.validate : Json → Except String UserInfo
  | Json.jobj fields =>
    if keysAllowed fields ["contest_id", "city", "city_en", "area", "locale_id",
        "phone", "school", "grade", "user_id"] = false then
      Except.error "unknown field in UserInfo"
    else if UserInfo.checkOptional fields = false then
      Except.error "invalid field in UserInfo"
    else Except.ok (UserInfo.extract fields)
  | _ => Except.error "UserInfo must be an object"

/-- Model `UserProfile` (models.py): aggregated `get-user` result with
required `user_id`/`user_login` and optional scalar and list fields. -/
structure UserProfile where
  user_id : Int
  user_login : String
  email : Option String
  is_banned : Option Bool
  is_invisible : Option Bool
  is_locked : Option Bool
  is_privileged : Option Bool
  never_clean : Option Bool
  passwd_method : Option Int
  read_only : Option Bool
  registration_time : Option Int
  show_email : Option Bool
  show_login : Option Bool
  simple_registration : Option Bool
  last_access_time : Option Int
  last_change_time : Option Int
  last_login_time : Option Int
  last_minor_change_time : Option Int
  last_pwdchange_time : Option Int
  contests : Option (List UserContestState)
  cookies : Option (List UserCookie)
  infos : Option (List UserInfo)

/-- Optional-field checks of `UserProfile`. -/
def UserProfile.checkOptional (fields : List (String × Json)) : Bool :=
  checkOptStr fields "email" && checkOptBool fields "is_banned"
    && checkOptBool fields "is_invisible" && checkOptBool fields "is_locked"
    && checkOptBool fields "is_privileged" && checkOptBool fields "never_clean"
    && checkOptInt fields "passwd_method" && checkOptBool fields "read_only"
    && checkOptInt fields "registration_time" && checkOptBool fields "show_email"
    && checkOptBool fields "show_login" && checkOptBool fields "simple_registration"
    && checkOptInt fields "last_access_time" && checkOptInt fields "last_change_time"
    && checkOptInt fields "last_login_time" && checkOptInt fields "last_minor_change_time"
    && checkOptInt fields "last_pwdchange_time"
    && checkOptList UserContestState.validate fields "contests"
    && checkOptList UserCookie.validate fields "cookies"
    && checkOptList UserInfo.validate fields "infos"

/-- Record built from a validated `UserProfile` object. -/
def UserProfile.extract (fields : List (String × Json)) (uid : Int) (login : String) :
    UserProfile :=
  { user_id := uid,
    user_login := strip login,
    email := optStrOf fields "email",
    is_banned := optBoolOf fields "is_banned",
    is_invisible := optBoolOf fields "is_invisible",
    is_locked := optBoolOf fields "is_locked",
    is_privileged := optBoolOf fields "is_privileged",
    never_clean := optBoolOf fields "never_clean",
    passwd_method := optIntOf fields "passwd_method",
    read_only := optBoolOf fields "read_only",
    registration_time := optIntOf fields "registration_time",
    show_email := optBoolOf fields "show_email",
    show_login := optBoolOf fields "show_login",
    simple_registration := optBoolOf fields "simple_registration",
    last_access_time := optIntOf fields "last_access_time",
    last_change_time := optIntOf fields "last_change_time",
    last_login_time := optIntOf fields "last_login_time",
    last_minor_change_time := optIntOf fields "last_minor_change_time",
    last_pwdchange_time := optIntOf fields "last_pwdchange_time",
    contests := optListOf UserContestState.validate fields "contests",
    cookies := optListOf UserCookie.validate fields "cookies",
    infos := optListOf UserInfo.validate fields "infos" }

/-- Validation of `UserProfile`. -/
def UserProfile.validate : Json → Except String UserProfile
  | Json.jobj fields =>
    if keysAllowed fields ["user_id", "user_login", "email", "is_banned",
        "is_invisible", "is_locked", "is_privileged", "never_clean", "passwd_method",
        "read_only", "registration_time", "show_email", "show_login",
        "simple_registration", "last_access_time", "last_change_time",
        "last_login_time", "last_minor_change_time", "last_pwdchange_time",
        "contests", "cookies", "infos"] = false then
      Except.error "unknown field in UserProfile"
    else
      match List.lookup "user_id" fields, List.lookup "user_login" fields with
      | some (Json.jnum uid), some (Json.jstr login) =>
        if decide (0 < uid) && UserProfile.checkOptional fields then
          Except.ok (UserProfile.extract fields uid login)
        else Except.error "invalid field in UserProfile"
      | _, _ => Except.error "UserProfile requires user_id and user_login"
  | _ => Except.error "UserProfile must be an object"

/-- Model `SubmitDetails` (models.py): rich status document returned by
`get-submit`. -/
structure SubmitDetails where
  submit_id : Int
  user_id : Int
  prob_id : Int
  lang_id : Int
  ext_user_kind : Option String
  ext_user : Option String
  notify_driver : Option Int
  notify_kind : Option NotificationKind
  notify_queue : Option String
  status : Int
  status_str : String
  compiler_output : Option String
  test_checker_output : Option String
  time : Option Int
  real_time : Option Int
  exit_code : Option Int
  term_signal : Option Int
  max_memory_used : Option Int
  max_rss : Option Int
  input : Option String
  output : Option String
  error : Option String

/-- Optional-field checks of `SubmitDetails`. -/
def SubmitDetails.checkOptional (fields : List (String × Json)) : Bool :=
  checkOptStr fields "ext_user_kind" && checkOptStr fields "ext_user"
    && checkOptInt fields "notify_driver" && checkOptKind fields "notify_kind"
    && checkOptStr fields "notify_queue" && checkOptStr fields "compiler_output"
    && checkOptStr fields "test_checker_output" && checkOptNonNegInt fields "time"
    && checkOptNonNegInt fields "real_time" && checkOptInt fields "exit_code"
    && checkOptInt fields "term_signal" && checkOptNonNegInt fields "max_memory_used"
    && checkOptNonNegInt fields "max_rss" && checkOptStr fields "input"
    && checkOptStr fields "output" && checkOptStr fields "error"

/-- Record built from a validated `SubmitDetails` object. -/
def SubmitDetails.extract (fields : List (String × Json))
    (sid uid pid lid st : Int) (sstr : String) : SubmitDetails :=
  { submit_id := sid,
    user_id := uid,
    prob_id := pid,
    lang_id := lid,
    ext_user_kind := optStrOf fields "ext_user_kind",
    ext_user := optStrOf fields "ext_user",
    notify_driver := optIntOf fields "notify_driver",
    notify_kind := optKindOf fields "notify_kind",
    notify_queue := optStrOf fields "notify_queue",
    status := st,
    status_str := strip sstr,
    compiler_output := optStrOf fields "compiler_output",
    test_checker_output := optStrOf fields "test_checker_output",
    time := optIntOf fields "time",
    real_time := optIntOf fields "real_time",
    exit_code := optIntOf fields "exit_code",
    term_signal := optIntOf fields "term_signal",
    max_memory_used := optIntOf fields "max_memory_used",
    max_rss := optIntOf fields "max_rss",
    input := optStrOf fields "input",
    output := optStrOf fields "output",
    error := optStrOf fields "error" }

/-- Validation of `SubmitDetails`: required positive `submit_id`,
`user_id`, `prob_id`, `lang_id`, required `status` and `status_str`,
optional constrained scalars, extra keys forbidden. -/
def SubmitDetails.validate : Json → Except String SubmitDetails
  | Json.jobj fields =>
    if keysAllowed fields ["submit_id", "user_id", "prob_id", "lang_id",
        "ext_user_kind", "ext_user", "notify_driver", "notify_kind", "notify_queue",
        "status", "status_str", "compiler_output", "test_checker_output", "time",
        "real_time", "exit_code", "term_signal", "max_memory_used", "max_rss",
        "input", "output", "error"] = false then
      Except.error "unknown field in SubmitDetails"
    else
      match List.lookup "submit_id" fields, List.lookup "user_id" fields,
            List.lookup "prob_id" fields, List.lookup "lang_id" fields,
            List.lookup "status" fields, List.lookup "status_str" fields with
      | some (Json.jnum sid), some (Json.jnum uid), some (Json.jnum pid),
        some (Json.jnum lid), some (Json.jnum st), some (Json.jstr sstr) =>
        if (decide (0 < sid) && decide (0 < uid) && decide (0 < pid)
            && decide (0 < lid)) && SubmitDetails.checkOptional fields then
          Except.ok (SubmitDetails.extract fields sid uid pid lid st sstr)
        else Except.error "invalid field in SubmitDetails"
      | _, _, _, _, _, _ =>
        Except.error "SubmitDetails requires submit_id, user_id, prob_id, lang_id, status and status_str"
  | _ => Except.error "SubmitDetails must be an object"

/-- One required body/query entry. -/
def reqEntry (k v : String) : List (String × String) := [(k, v)]

/-- One optional body/query entry (`exclude_none=True` drops absent fields). -/
def optEntry (k : String) (v : Option String) : List (String × String) :=
  match v with
  | none => []
  | some s => [(k, s)]

/-- Embeds `_stringify` (client.py) on booleans: `'1'` / `'0'`. -/
def stringifyBool (b : Bool) : String := if b then "1" else "0"

/-- Embeds `_stringify` (client.py) on integers: `str(value)`. -/
def stringifyInt (n : Int) : String := toString n

/-- Embeds `_stringify` (client.py) on an `int | str` value. -/
def stringifyIntOrStr : Sum Int String → String
  | Sum.inl n => toString n
  | Sum.inr s => s

/-- Embeds `_FormPayload` (client.py): body fields plus file attachments
`name ↦ (filename, content)`. -/
structure FormPayload where
  data : List (String × String)
  files : List (String × String × Bytes)

/-- The scalar fields of a `submit-run` dump (`model_dump(mode='json',
by_alias=True, exclude_none=True)`) after `action`, `file` and `text_form`
have been popped, stringified by `_stringify`, in field declaration order. -/
def submitRunRest (r : SubmitRunRequest) : List (String × String) :=
  reqEntry "contest_id" (stringifyInt r.contest_id)
    ++ optEntry "sender_user_login" r.sender_user_login
    ++ optEntry "sender_user_id" (r.sender_user_id.map stringifyInt)
    ++ optEntry "sender_ip" r.sender_ip
    ++ optEntry "sender_ssl_flag" (r.sender_ssl_flag.map stringifyBool)
    ++ optEntry "problem_uuid" r.problem_uuid
    ++ optEntry "problem_name" r.problem_name
    ++ optEntry "problem" (r.problem.map stringifyInt)
    ++ optEntry "variant" (r.variant.map stringifyInt)
    ++ optEntry "language_name" r.language_name
    ++ optEntry "lang_id" (r.lang_id.map stringifyIntOrStr)
    ++ optEntry "eoln_type" (r.eoln_type.map stringifyInt)
    ++ optEntry "is_visible" (r.is_visible.map stringifyBool)
    ++ optEntry "not_ok_is_cf" (r.not_ok_is_cf.map stringifyBool)
    ++ optEntry "rejudge_flag" (r.rejudge_flag.map stringifyBool)
    ++ optEntry "ext_user_kind" r.ext_user_kind
    ++ optEntry "ext_user" r.ext_user
    ++ optEntry "notify_driver" (r.notify_driver.map stringifyInt)
    ++ optEntry "notify_kind" (r.notify_kind.map NotificationKind.wire)
    ++ optEntry "notify_queue" r.notify_queue

/-- Embeds `_prepare_submit_run_payload` (client.py): pop `action`; a binary
source becomes the `file` attachment named `solution`, a text source the
`text_form` body field; every other present scalar is stringified into the
body. -/
def prepare_submit_run_payload (r : SubmitRunRequest) : FormPayload :=
  { data := (match r.text_form with
      | none => []
      | some t => [("text_form", t)]) ++ submitRunRest r,
    files := match r.file with
      | none => []
      | some b => [("file", ("solution", b))] }

/-- The scalar fields of a `submit-run-input` dump after `action`, the
source pair and the stdin pair have been popped. -/
def submitRunInputRest (r : SubmitRunInputRequest) : List (String × String) :=
  reqEntry "contest_id" (stringifyInt r.contest_id)
    ++ optEntry "sender_user_login" r.sender_user_login
    ++ optEntry "sender_user_id" (r.sender_user_id.map stringifyInt)
    ++ optEntry "sender_ip" r.sender_ip
    ++ optEntry "sender_ssl_flag" (r.sender_ssl_flag.map stringifyBool)
    ++ reqEntry "prob_id" (stringifyIntOrStr r.prob_id)
    ++ reqEntry "lang_id" (stringifyIntOrStr r.lang_id)
    ++ optEntry "eoln_type" (r.eoln_type.map stringifyInt)
    ++ optEntry "ext_user_kind" r.ext_user_kind
    ++ optEntry "ext_user" r.ext_user
    ++ optEntry "notify_driver" (r.notify_driver.map stringifyInt)
    ++ optEntry "notify_kind" (r.notify_kind.map NotificationKind.wire)
    ++ optEntry "notify_queue" r.notify_queue

/-- Embeds `_prepare_submit_run_input_payload` (client.py): like `submit-run`,
with the stdin payload following the same binary/text duality. -/
def prepare_submit_run_input_payload (r : SubmitRunInputRequest) : FormPayload :=
  { data := (match r.text_form with
      | none => []
      | some t => [("text_form", t)])
      ++ (match r.text_form_input with
      | none => []
      | some t => [("text_form_input", t)]) ++ submitRunInputRest r,
    files := (match r.file with
      | none => []
      | some b => [("file", ("solution", b))])
      ++ (match r.file_input with
      | none => []
      | some b => [("file_input", ("stdin", b))]) }

/-- Embeds `SubmitRunInputResult` (models.py). -/
structure SubmitRunInputResult where
  submit_id : Int
deriving DecidableEq

/-- Validation of `SubmitRunInputResult` (`submit_id: int, gt=0`). -/
def SubmitRunInputResult.validate : Json → Except String SubmitRunInputResult
  | Json.jobj fields =>
    if keysAllowed fields ["submit_id"] = false then
      Except.error "unknown field in SubmitRunInputResult"
    else
      match List.lookup "submit_id" fields with
      | some (Json.jnum n) =>
        if 0 < n then Except.ok { submit_id := n }
        else Except.error "submit_id must be greater than 0"
      | _ => Except.error "SubmitRunInputResult requires submit_id"
  | _ => Except.error "SubmitRunInputResult must be an object"

/-- The state `EjudgeClient.__init__` derives from its arguments that the
claims depend on: the fixed `Authorization` header value. -/
structure ClientState where
  authorization : String

/-- Embeds `EjudgeClient.__init__` (client.py): the API token is embedded once as
`Bearer AQAA<token>`. -/
def EjudgeClient.make (api_token : String) : ClientState :=
  { authorization := "Bearer AQAA" ++ api_token }

/-- Python `dict` update of one key: overwrite in place if present, else
append. -/
def dictUpdate (base : List (String × String)) (k v : String) : List (String × String) :=
  if base.any (fun p => p.1 == k) then
    base.map (fun p => if p.1 == k then (k, v) else p)
  else base ++ [(k, v)]

/-- Embeds `request_params.update(...)` over a whole mapping. -/
def dictUpdateAll (base extra : List (String × String)) : List (String × String) :=
  extra.foldl (fun acc kv => dictUpdate acc kv.1 kv.2) base

/-- Embeds `EjudgeClient._request` query-parameter assembly: start from
`{'json': '1', 'action': action}` and merge the stringified extra
parameters. -/
def buildRequestParams (action : String) (extra : List (String × String)) :
    List (String × String) :=
  dictUpdateAll [("json", "1"), ("action", action)] extra

/-- One outbound HTTP request as handed to the transport. -/
structure OutboundRequest where
  method : String
  params : List (String × String)
  headers : List (String × String)
  data : List (String × String)
  files : List (String × String × Bytes)

/-- Assemble the outbound request exactly as `EjudgeClient._request` does
before issuing the call. -/
def buildOutbound (c : ClientState) (method action : String)
    (extra : List (String × String)) (data : List (String × String))
    (files : List (String × String × Bytes)) : OutboundRequest :=
  { method := method, params := buildRequestParams action extra,
    headers := [("Authorization", c.authorization)], data := data, files := files }

/-- An HTTP response; `body = none` models a body that is not valid JSON. -/
structure HttpResponse where
  status : Nat
  body : Option Json

/-- Outcome of one network call: a response, or an `httpx.HTTPError`
raised below the status-code level (connection, protocol, timeout). -/
inductive TransportOutcome where
  | response : HttpResponse → TransportOutcome
  | networkFailure : TransportOutcome

/-- The client error taxonomy: `clientError` is `EjudgeClientError`,
`replyError` its subclass `EjudgeReplyError` carrying the full decoded
envelope.  Each carries the exception message. -/
inductive ClientFailure (ρ : Type) where
  | clientError : String → ClientFailure ρ
  | replyError : Reply ρ → String → ClientFailure ρ

/-- Message of the `HTTPStatusError` branch of `_request` (Python's
`{action!r}` quoting is omitted). -/
def statusErrorMessage (action : String) (status : Nat) : String :=
  "ejudge returned unexpected HTTP status " ++ toString status ++ " for action " ++ action

/-- Message of the network/protocol `HTTPError` branch of `_request`. -/
def networkErrorMessage (action : String) : String :=
  "Error communicating with ejudge while performing action " ++ action

/-- Embeds `EjudgeClient._request` (client.py): issue the call; a non-2xx status
(httpx `raise_for_status`, success being 200..299) becomes an
`EjudgeClientError` naming the action and status, any other `httpx`
failure an `EjudgeClientError` naming the action. -/
def ejudgeRequest {ρ : Type} (action : String) (outcome : TransportOutcome) :
    Except (ClientFailure ρ) HttpResponse :=
  match outcome with
  | TransportOutcome.networkFailure =>
      Except.error (ClientFailure.clientError (networkErrorMessage action))
  | TransportOutcome.response resp =>
      if 200 ≤ resp.status ∧ resp.status ≤ 299 then Except.ok resp
      else Except.error (ClientFailure.clientError (statusErrorMessage action resp.status))

/-- The synthesized error block of `EjudgeReplyError.__init__` used when
the envelope has no `error` field. -/
def fallbackError : EjudgeError :=
  { num := -1, symbol := "unknown", message := some "No error payload provided by ejudge." }

/-- The `EjudgeReplyError` message: formatted from the error block's
symbol, numeric code and message. -/
def replyErrorMessage (e : EjudgeError) : String :=
  "ejudge reported error " ++ e.symbol ++ " (" ++ toString e.num ++ "): "
    ++ e.message.getD "no message"

/-- Embeds `EjudgeReplyError.__init__` (client.py): wrap an `ok = false` reply,
falling back to the synthesized `unknown` block. -/
def mkReplyError {ρ : Type} (reply : Reply ρ) : ClientFailure ρ :=
  ClientFailure.replyError reply (replyErrorMessage (reply.error.getD fallbackError))

/-- Embeds `EjudgeClient._parse_reply` (client.py): JSON decode, schema
validation, then the `ok` discrimination. -/
def parseReply {ρ : Type} (validateResult : Json → Except String ρ) (modelName : String)
    (body : Option Json) : Except (ClientFailure ρ) (Reply ρ) :=
  match body with
  | none => Except.error
      (ClientFailure.clientError "ejudge response did not contain valid JSON payload.")
  | some j =>
    match validateReply validateResult j with
    | Except.error _ => Except.error
        (ClientFailure.clientError ("Unable to validate ejudge response as " ++ modelName ++ "."))
    | Except.ok parsed =>
      if parsed.ok then Except.ok parsed else Except.error (mkReplyError parsed)

/-- The shared per-call pipeline of the four public operations:
`_request` followed by `_parse_reply`. -/
def performAction {ρ : Type} (action modelName : String)
    (validateResult : Json → Except String ρ) (outcome : TransportOutcome) :
    Except (ClientFailure ρ) (Reply ρ) :=
  match ejudgeRequest action outcome with
  | Except.error e => Except.error e
  | Except.ok resp => parseReply validateResult modelName resp.body

/-- The outbound request built by `EjudgeClient.submit_run`. -/
def submitRunOutbound (c : ClientState) (r : SubmitRunRequest) : OutboundRequest :=
  let payload := prepare_submit_run_payload r
  buildOutbound c "POST" "submit-run" [] payload.data payload.files

/-- Embeds `EjudgeClient.submit_run` (client.py), with the transport explicit. -/
def EjudgeClient.submit_run (c : ClientState)
    (transport : OutboundRequest → TransportOutcome) (r : SubmitRunRequest) :
    Except (ClientFailure SubmitRunResult) (Reply SubmitRunResult) :=
  performAction "submit-run" "SubmitRunReply" SubmitRunResult.validate
    (transport (submitRunOutbound c r))

/-- The outbound request built by `EjudgeClient.submit_run_input`. -/
def submitRunInputOutbound (c : ClientState) (r : SubmitRunInputRequest) : OutboundRequest :=
  let payload := prepare_submit_run_input_payload r
  buildOutbound c "POST" "submit-run-input" [] payload.data payload.files

/-- Embeds `EjudgeClient.submit_run_input` (client.py). -/
def EjudgeClient.submit_run_input (c : ClientState)
    (transport : OutboundRequest → TransportOutcome) (r : SubmitRunInputRequest) :
    Except (ClientFailure SubmitRunInputResult) (Reply SubmitRunInputResult) :=
  performAction "submit-run-input" "SubmitRunInputReply" SubmitRunInputResult.validate
    (transport (submitRunInputOutbound c r))

/-- Embeds `model_dump(mode='json', by_alias=True, exclude_none=True)` of a
`GetSubmitRequest`, stringified by `_stringify` in `_request`. -/
def GetSubmitRequest.dumpParams (r : GetSubmitRequest) : List (String × String) :=
  [("contest_id", stringifyInt r.contest_id), ("action", "get-submit"),
    ("submit_id", stringifyInt r.submit_id)]

/-- The outbound request built by `EjudgeClient.get_submit`. -/
def getSubmitOutbound (c : ClientState) (r : GetSubmitRequest) : OutboundRequest :=
  buildOutbound c "GET" "get-submit" r.dumpParams [] []

/-- Embeds `EjudgeClient.get_submit` (client.py).  The `SubmitDetails` result
validator is a parameter: no claim depends on its fields. -/
def EjudgeClient.get_submit {ρ : Type} (validateResult : Json → Except String ρ)
    (c : ClientState) (transport : OutboundRequest → TransportOutcome)
    (r : GetSubmitRequest) : Except (ClientFailure ρ) (Reply ρ) :=
  performAction "get-submit" "GetSubmitReply" validateResult
    (transport (getSubmitOutbound c r))

/-- Embeds `model_dump(mode='json', by_alias=True, exclude_none=True)` of a
`GetUserRequest` (note the `global` alias). -/
def GetUserRequest.dumpParams (r : GetUserRequest) : List (String × String) :=
  [("contest_id", stringifyInt r.contest_id), ("action", "get-user")]
    ++ optEntry "other_user_id" (r.other_user_id.map stringifyInt)
    ++ optEntry "other_user_login" r.other_user_login
    ++ optEntry "global" (r.global_.map stringifyBool)

/-- The outbound request built by `EjudgeClient.get_user`. -/
def getUserOutbound (c : ClientState) (r : GetUserRequest) : OutboundRequest :=
  buildOutbound c "GET" "get-user" r.dumpParams [] []

/-- Embeds `EjudgeClient.get_user` (client.py).  The `UserProfile` result
validator is a parameter: no claim depends on its fields. -/
def EjudgeClient.get_user {ρ : Type} (validateResult : Json → Except String ρ)
    (c : ClientState) (transport : OutboundRequest → TransportOutcome)
    (r : GetUserRequest) : Except (ClientFailure ρ) (Reply ρ) :=
  performAction "get-user" "GetUserReply" validateResult
    (transport (getUserOutbound c r))

/-- Embeds `RecordedCall` (mocks.py): one captured outgoing request. -/
structure RecordedCall where
  method : String
  url_params : List (String × String)
  headers : List (String × String)
  content : String
deriving DecidableEq

/-- The request an `httpx.MockTransport` handler receives; the URL is
represented by its query parameters, the raw body by a string. -/
structure MockRequest where
  method : String
  params : List (String × String)
  headers : List (String × String)
  content : String
deriving DecidableEq

/-- The `RecordedCall(...)` construction inside the handler. -/
def RecordedCall.of (req : MockRequest) : RecordedCall :=
  { method := req.method, url_params := req.params, headers := req.headers,
    content := req.content }

/-- The HTTP 400 body for a request with no `action` query parameter. -/
def missingActionBody : Json :=
  Json.jobj [("ok", Json.jbool false),
    ("error", Json.jobj [("symbol", Json.jstr "missing-action")])]

/-- The HTTP 404 body for an action with no registered canned response. -/
def unhandledActionBody (action : String) : Json :=
  Json.jobj [("ok", Json.jbool false),
    ("error", Json.jobj [("symbol", Json.jstr "unhandled-action"),
      ("message", Json.jstr action)])]

/-- The `handler` closure of `create_mock_transport` (mocks.py): record
the request into the call log, then dispatch on the `action` query
parameter.  The returned pair is the updated log and the response. -/
def mockHandler (responses : List (String × Nat × Json)) (calls : List RecordedCall)
    (request : MockRequest) : List RecordedCall × HttpResponse :=
  let recorded := RecordedCall.of request
  let calls2 := calls ++ [recorded]
  match List.lookup "action" request.params with
  | none => (calls2, { status := 400, body := some missingActionBody })
  | some action =>
    match List.lookup action responses with
    | none => (calls2, { status := 404, body := some (unhandledActionBody action) })
    | some sp => (calls2, { status := sp.1, body := some sp.2 })

/-- Embeds `_coerce_payload` (mocks.py) on a Pydantic model argument: status 200
and the `model_dump_json(by_alias=True, exclude_none=True)` data. -/
def coerce_payload_model (dumped : Json) : Nat × Json := (200, dumped)

/-- One optional key of a JSON dump (`exclude_none=True`). -/
def jsonOptEntry (k : String) (v : Option Json) : List (String × Json) :=
  match v with
  | none => []
  | some j => [(k, j)]

/-- Embeds `model_dump_json(by_alias=True, exclude_none=True)` of a
`SubmitRunResult`. -/
def SubmitRunResult.dumpJson (r : SubmitRunResult) : Json :=
  Json.jobj ([("run_id", Json.jnum r.run_id)]
    ++ jsonOptEntry "run_uuid" (r.run_uuid.map Json.jstr))

/-- Embeds `model_dump_json(by_alias=True, exclude_none=True)` of an
`EjudgeError`. -/
def EjudgeError.dumpJson (e : EjudgeError) : Json :=
  Json.jobj ([("num", Json.jnum e.num), ("symbol", Json.jstr e.symbol)]
    ++ jsonOptEntry "message" (e.message.map Json.jstr))

/-- Embeds `model_dump_json(by_alias=True, exclude_none=True)` of a reply
envelope, parameterized by the result dump. -/
def Reply.dumpJson {ρ : Type} (dumpResult : ρ → Json) (r : Reply ρ) : Json :=
  Json.jobj ([("ok", Json.jbool r.ok), ("action", Json.jstr r.action)]
    ++ jsonOptEntry "server_time" (r.server_time.map Json.jnum)
    ++ jsonOptEntry "reply_id" (r.reply_id.map Json.jnum)
    ++ jsonOptEntry "request_id" (r.request_id.map Json.jnum)
    ++ jsonOptEntry "result" (r.result.map dumpResult)
    ++ jsonOptEntry "error" (r.error.map EjudgeError.dumpJson))

/-- Embeds `make_submit_run_reply` (mocks.py): a success envelope for
`submit-run`. -/
def make_submit_run_reply (run_id : Int) (run_uuid : Option String) :
    Reply SubmitRunResult :=
  { ok := true, action := "submit-run", server_time := none, reply_id := none,
    request_id := none, result := some { run_id := run_id, run_uuid := run_uuid },
    error := none }

/-- Abstract form-body encoding used only to fill the recorded raw
content; the mock handler never parses it. -/
def encodeFormBody (data : List (String × String))
    (files : List (String × String × Bytes)) : String :=
  String.intercalate "&"
    (data.map (fun kv => kv.1 ++ "=" ++ kv.2) ++ files.map (fun kv => kv.1))

/-- View an outbound client request as the request the mock handler sees. -/
def OutboundRequest.toMockRequest (o : OutboundRequest) : MockRequest :=
  { method := o.method, params := o.params, headers := o.headers,
    content := encodeFormBody o.data o.files }

/-- An `httpx.MockTransport` built from `create_mock_transport`, as a
transport function for the client (the call log starts empty and is not
observed here). -/
def mockTransport (responses : List (String × Nat × Json)) :
    OutboundRequest → TransportOutcome :=
  fun o => TransportOutcome.response
    (mockHandler responses [] (OutboundRequest.toMockRequest o)).2

/-! ## Theorems for the claims -/

/-- C3: every request to the mock transport harness is appended to the
caller-visible call log in arrival order before any response is produced
(also for malformed and unmapped requests), and the response is: no
`action` query parameter → HTTP 400 with body
`{"ok": false, "error": {"symbol": "missing-action"}}`; an unregistered
action → HTTP 404 with `error.symbol = "unhandled-action"` and
`error.message` the action name; a registered action → the registered
status code and payload. -/
theorem claim_C3_mock_transport_dispatch (responses : List (String × Nat × Json))
    (calls : List RecordedCall) (request : MockRequest) :
    mockHandler responses calls request =
      (calls ++ [RecordedCall.of request],
        match List.lookup "action" request.params with
        | none =>
          { status := 400, body := some (Json.jobj [("ok", Json.jbool false),
              ("error", Json.jobj [("symbol", Json.jstr "missing-action")])]) }
        | some action =>
          match List.lookup action responses with
          | none =>
            { status := 404, body := some (Json.jobj [("ok", Json.jbool false),
                ("error", Json.jobj [("symbol", Json.jstr "unhandled-action"),
                  ("message", Json.jstr action)])]) }
          | some sp => { status := sp.1, body := some sp.2 }) := by
  unfold mockHandler
  cases List.lookup "action" request.params with
  | none => rfl
  | some a =>
    dsimp only
    cases List.lookup a responses with
    | none => rfl
    | some sp => rfl

/-- C6: a non-2xx HTTP status makes any client operation fail with a
`ClientError` whose message names the action and the status code (not a
`ReplyError`), and a network/protocol-level failure fails with a
`ClientError` naming the action, with a message distinct from the
status-code one. -/
theorem claim_C6_non2xx_and_network_client_error {ρ : Type} (action modelName : String)
    (validateResult : Json → Except String ρ) (status : Nat) (body : Option Json)
    (h : status < 200 ∨ 299 < status) :
    performAction action modelName validateResult
        (TransportOutcome.response { status := status, body := body })
      = Except.error (ClientFailure.clientError (statusErrorMessage action status)) ∧
    performAction action modelName validateResult TransportOutcome.networkFailure
      = Except.error (ClientFailure.clientError (networkErrorMessage action)) ∧
    statusErrorMessage action status ≠ networkErrorMessage action := by
  refine ⟨?_, rfl, ?_⟩
  · have hns : ¬(200 ≤ status ∧ status ≤ 299) := by omega
    unfold performAction ejudgeRequest
    dsimp only
    rw [if_neg hns]
  · intro hEq
    have hd := congrArg String.data hEq
    unfold statusErrorMessage networkErrorMessage at hd
    simp only [String.data_append] at hd
    have hh := congrArg List.head? hd
    simp at hh

/-- Witness for C6 at a concrete 500 response. -/
theorem claim_C6_witness :
    performAction "submit-run" "SubmitRunReply" SubmitRunResult.validate
        (TransportOutcome.response { status := 500, body := none })
      = Except.error (ClientFailure.clientError (statusErrorMessage "submit-run" 500)) :=
  (claim_C6_non2xx_and_network_client_error "submit-run" "SubmitRunReply"
    SubmitRunResult.validate 500 none (Or.inr (by decide))).1

/-- C1: for every reply body that validates against the expected reply
shape with `ok = false`, the client operation pipeline shared by
`submit_run`, `submit_run_input`, `get_submit` and `get_user`
(`performAction`, i.e. `_request` + `_parse_reply`) fails with a
`ReplyError` carrying the full decoded envelope and never returns
normally; its message is formatted from the error block's symbol, numeric
code and message, with the synthesized block `num = -1`,
`symbol = "unknown"` used when the envelope has no error block. -/
theorem claim_C1_ok_false_raises_reply_error {ρ : Type} (action modelName : String)
    (validateResult : Json → Except String ρ) (status : Nat) (body : Json)
    (reply : Reply ρ)
    (hstatus : 200 ≤ status ∧ status ≤ 299)
    (hvalid : validateReply validateResult body = Except.ok reply)
    (hok : reply.ok = false) :
    performAction action modelName validateResult
        (TransportOutcome.response { status := status, body := some body })
      = Except.error (ClientFailure.replyError reply
          (replyErrorMessage (reply.error.getD fallbackError))) ∧
    (reply.error = none →
      reply.error.getD fallbackError = fallbackError ∧ fallbackError.num = -1
        ∧ fallbackError.symbol = "unknown") := by
  constructor
  · unfold performAction ejudgeRequest
    dsimp only
    rw [if_pos hstatus]
    unfold parseReply
    dsimp only
    rw [hvalid]
    simp [hok, mkReplyError]
  · intro he
    rw [he]
    exact ⟨rfl, rfl, rfl⟩

/-- Witness for C1: a 200 response whose body is the envelope
`{"ok": false, "action": "submit-run"}`. -/
theorem claim_C1_witness :
    performAction "submit-run" "SubmitRunReply" SubmitRunResult.validate
        (TransportOutcome.response { status := 200, body := some (Json.jobj
          [("ok", Json.jbool false), ("action", Json.jstr "submit-run")]) })
      = Except.error (ClientFailure.replyError
          (⟨false, "submit-run", none, none, none, none, none⟩ : Reply SubmitRunResult)
          (replyErrorMessage
            ((none : Option EjudgeError).getD fallbackError))) :=
  (claim_C1_ok_false_raises_reply_error "submit-run" "SubmitRunReply"
    SubmitRunResult.validate 200
    (Json.jobj [("ok", Json.jbool false), ("action", Json.jstr "submit-run")])
    ⟨false, "submit-run", none, none, none, none, none⟩
    (by decide) (by rfl) (by rfl)).1

/-- All construction-time checks of `SubmitRunRequest.validate` other
than the problem-selector rule, phrased on the raw field values: positive
identifiers, non-negative `eoln_type`, exactly one language selector,
exactly one source payload, and the all-or-none notification triplet. -/
def submitRunOtherInvariants (r : SubmitRunRequest) : Prop :=
  0 < r.contest_id ∧
  r.sender_user_id.all (fun n => decide (0 < n)) = true ∧
  r.problem.all (fun n => decide (0 < n)) = true ∧
  r.eoln_type.all (fun n => decide (0 ≤ n)) = true ∧
  r.language_name.isNone ≠ r.lang_id.isNone ∧
  r.file.isNone ≠ r.text_form.isNone ∧
  r.notify_driver.isSome = r.notify_kind.isSome ∧
  r.notify_kind.isSome = r.notify_queue.isSome

theorem option_any_nonpos_false {x : Option Int}
    (h : x.all (fun n => decide (0 < n)) = true) :
    x.any (fun n => decide (n ≤ 0)) = false := by
  cases x with
  | none => rfl
  | some n =>
    simp only [Option.all_some, decide_eq_true_eq] at h
    simp only [Option.any_some, decide_eq_false_iff_not]
    omega

theorem option_any_neg_false {x : Option Int}
    (h : x.all (fun n => decide (0 ≤ n)) = true) :
    x.any (fun n => decide (n < 0)) = false := by
  cases x with
  | none => rfl
  | some n =>
    simp only [Option.all_some, decide_eq_true_eq] at h
    simp only [Option.any_some, decide_eq_false_iff_not]
    omega

theorem triplet_guard_false {a b c : Bool} (h1 : a = b) (h2 : b = c) :
    ((a || b || c) && !(a && b && c)) = false := by
  subst h1
  subst h2
  cases a <;> rfl

/-- C5: constructing a `submit-run` request with zero, two or three of
`problem_uuid`, `problem_name`, `problem` set fails validation;
constructing one with exactly one of them set, all other invariants
satisfied, succeeds. -/
theorem claim_C5_exactly_one_problem_selector (r : SubmitRunRequest) :
    (∀ t, SubmitRunRequest.validate r = Except.ok t → problemSelectorCount r = 1) ∧
    (submitRunOtherInvariants r → problemSelectorCount r = 1 →
      ∃ t, SubmitRunRequest.validate r = Except.ok t) := by
  have hcount : problemSelectorCount r.stripped = problemSelectorCount r := by
    simp [SubmitRunRequest.stripped, problemSelectorCount]
  constructor
  · intro t h
    unfold SubmitRunRequest.validate at h
    by_cases hpc : problemSelectorCount r.stripped = 1
    · rw [← hcount]
      exact hpc
    · exfalso
      split_ifs at h <;> simp_all
  · rintro ⟨hc, hsender, hprob, heoln, hlang, hsrc, ht1, ht2⟩ hone
    refine ⟨r.stripped, ?_⟩
    have hq : (Option.map strip r.notify_queue).isSome = r.notify_queue.isSome := by
      simp
    have htrip : ((r.stripped.notify_driver.isSome || r.stripped.notify_kind.isSome
          || r.stripped.notify_queue.isSome)
        && !(r.stripped.notify_driver.isSome && r.stripped.notify_kind.isSome
          && r.stripped.notify_queue.isSome)) = false := by
      have hc2 : r.notify_kind.isSome = r.stripped.notify_queue.isSome := by
        show r.notify_kind.isSome = (Option.map strip r.notify_queue).isSome
        rw [hq]
        exact ht2
      exact triplet_guard_false ht1 hc2
    have hlang2 : ¬(r.stripped.language_name.isNone = r.stripped.lang_id.isNone) := by
      simpa [SubmitRunRequest.stripped] using hlang
    have hsrc2 : ¬(r.stripped.file.isNone = r.stripped.text_form.isNone) := by
      simpa [SubmitRunRequest.stripped] using hsrc
    unfold SubmitRunRequest.validate
    rw [if_neg (by omega), if_neg (by rw [option_any_nonpos_false hsender]; simp),
      if_neg (by rw [option_any_nonpos_false hprob]; simp),
      if_neg (by rw [option_any_neg_false heoln]; simp)]
    dsimp only
    rw [if_neg (by rw [hcount]; omega), if_neg hlang2, if_neg hsrc2,
      if_neg (by rw [htrip]; simp)]

/-- Witness for C5: a request with exactly one problem selector set
validates, so the count really is 1. -/
theorem claim_C5_witness :
    problemSelectorCount { contest_id := 1, problem := some 5,
                           lang_id := some (Sum.inl 2), text_form := some "x" } = 1 :=
  (claim_C5_exactly_one_problem_selector _).1 _ (by rfl)

theorem string_ne_empty_iff_length_pos (s : String) : s ≠ "" ↔ 0 < s.length := by
  cases s with
  | mk data =>
    rw [String.length_mk]
    constructor
    · intro h
      refine List.length_pos.mpr ?_
      intro hd
      exact h (by rw [hd])
    · intro h hEq
      have h0 := congrArg String.length hEq
      rw [String.length_mk] at h0
      have hz : ("" : String).length = 0 := rfl
      omega

/-- Inversion of a successful `SubmitRunRequest` construction: the result
is the whitespace-stripped record and the source-payload selector guard
held. -/
theorem SubmitRunRequest.validate_ok_inv {r q : SubmitRunRequest}
    (h : SubmitRunRequest.validate r = Except.ok q) :
    q = r.stripped ∧ ¬(q.file.isNone = q.text_form.isNone) := by
  simp only [SubmitRunRequest.validate] at h
  split_ifs at h with h1 h2 h3 h4 h5 h6 h7 h8 <;> try exact Except.noConfusion h
  simp only [Except.ok.injEq] at h
  subst h
  exact ⟨rfl, h7⟩

/-- Inversion of a successful `SubmitRunInputRequest` construction. -/
theorem SubmitRunInputRequest.validate_ok_stripped_eq {r q : SubmitRunInputRequest}
    (h : SubmitRunInputRequest.validate r = Except.ok q) : q = r.stripped := by
  simp only [SubmitRunInputRequest.validate] at h
  split_ifs at h <;> try exact Except.noConfusion h
  simp only [Except.ok.injEq] at h
  exact h.symm

/-- C8 counterexample: a `SubmitRunRequest` whose `notify_queue` is
whitespace-only constructs successfully (storing the empty queue), so the
claim that every request model rejects a queue that is empty after
trimming is false. -/
theorem claim_C8_counterexample :
    SubmitRunRequest.validate { contest_id := 1, problem := some 5,
                                lang_id := some (Sum.inl 2), text_form := some "x",
                                notify_driver := some 1,
                                notify_kind := some NotificationKind.str,
                                notify_queue := some "   " }
      = Except.ok { contest_id := 1, problem := some 5,
                    lang_id := some (Sum.inl 2), text_form := some "x",
                    notify_driver := some 1,
                    notify_kind := some NotificationKind.str,
                    notify_queue := some "" } := by rfl

/-- C8 (amended): only `NotificationTarget` validates the queue
identifier eagerly: with a positive driver, construction succeeds exactly
when the queue is non-empty after trimming (and within the 128-character
bound), and then stores it trimmed and non-empty; the submit request
models (`SubmitRunRequest` and `SubmitRunInputRequest`) merely store the
queue trimmed — accepting a queue that is empty after trimming, as the
final conjunct and the counterexample show — and enforce only the
all-or-none triplet rule. -/
theorem claim_C8_queue_trimming (t : NotificationTarget) :
    (0 < t.driver →
      ((∃ u, NotificationTarget.validate t = Except.ok u) ↔
        (strip t.queue ≠ "" ∧ (strip t.queue).length ≤ 128))) ∧
    (∀ u, NotificationTarget.validate t = Except.ok u →
      u.queue = strip t.queue ∧ u.queue ≠ "") ∧
    (∀ r q, SubmitRunRequest.validate r = Except.ok q →
      q.notify_queue = r.notify_queue.map strip) ∧
    (∀ r q, SubmitRunInputRequest.validate r = Except.ok q →
      q.notify_queue = r.notify_queue.map strip) ∧
    SubmitRunInputRequest.validate
        { contest_id := 1, prob_id := Sum.inl 3, lang_id := Sum.inl 2,
          text_form := some "x", text_form_input := some "y",
          notify_driver := some 1, notify_kind := some NotificationKind.str,
          notify_queue := some "   " }
      = Except.ok { contest_id := 1, prob_id := Sum.inl 3, lang_id := Sum.inl 2,
                    text_form := some "x", text_form_input := some "y",
                    notify_driver := some 1, notify_kind := some NotificationKind.str,
                    notify_queue := some "" } := by
  have hstep : ∀ u, NotificationTarget.validate t = Except.ok u →
      u.queue = strip t.queue ∧ u.queue ≠ "" := by
    intro u h
    simp only [NotificationTarget.validate] at h
    split_ifs at h with h1 h2 h3 h4 <;> try exact Except.noConfusion h
    simp only [Except.ok.injEq] at h
    subst h
    exact ⟨strip_idem t.queue, h4⟩
  refine ⟨?_, hstep, ?_, ?_, by rfl⟩
  · intro hdriver
    constructor
    · rintro ⟨u, hu⟩
      have hq := hstep u hu
      have hne : strip t.queue ≠ "" := hq.1 ▸ hq.2
      refine ⟨hne, ?_⟩
      simp only [NotificationTarget.validate] at hu
      split_ifs at hu with h1 h2 h3 h4 <;> try exact Except.noConfusion hu
      omega
    · rintro ⟨hne, hlen⟩
      have hpos : 0 < (strip t.queue).length :=
        (string_ne_empty_iff_length_pos (strip t.queue)).mp hne
      refine ⟨{ driver := t.driver, kind := t.kind, queue := strip (strip t.queue) }, ?_⟩
      simp only [NotificationTarget.validate]
      rw [if_neg (by omega), if_neg (by omega), if_neg (by omega),
        if_neg (by rw [strip_idem]; exact hne)]
  · intro r q h
    have hinv := SubmitRunRequest.validate_ok_inv h
    rw [hinv.1]
    rfl
  · intro r q h
    rw [SubmitRunInputRequest.validate_ok_stripped_eq h]
    rfl

/-- Witness for C8 (amended): a padded queue identifier is stored
trimmed and non-empty. -/
theorem claim_C8_witness :
    (⟨1, NotificationKind.str, "jobs"⟩ : NotificationTarget).queue = strip " jobs " ∧
    (⟨1, NotificationKind.str, "jobs"⟩ : NotificationTarget).queue ≠ "" :=
  (claim_C8_queue_trimming ⟨1, NotificationKind.str, " jobs "⟩).2.1
    ⟨1, NotificationKind.str, "jobs"⟩ (by rfl)

theorem lookup_append (k : String) (l1 l2 : List (String × String)) :
    List.lookup k (l1 ++ l2) = Option.or (List.lookup k l1) (List.lookup k l2) := by
  induction l1 with
  | nil => simp
  | cons a t ih =>
    rcases a with ⟨a1, a2⟩
    cases hk : k == a1 with
    | true => simp [List.lookup, hk]
    | false => simp [List.lookup, hk, ih]

theorem lookup_optEntry (k k2 : String) (v : Option String) :
    List.lookup k (optEntry k2 v) = if k == k2 then v else none := by
  cases v <;> cases hk : k == k2 <;> simp [optEntry, List.lookup, hk]

theorem lookup_reqEntry (k k2 v : String) :
    List.lookup k (reqEntry k2 v) = if k == k2 then some v else none := by
  cases hk : k == k2 <;> simp [reqEntry, List.lookup, hk]

/-- C2: for every valid `submit-run` request, the encoded payload has:
with a text source, a `text_form` body field equal to the (stored) source
text and no file attachment; with a binary source, a `file` attachment and
no `text_form` body field; and in both cases no `action` field in the
body. -/
theorem claim_C2_submit_run_payload (r q : SubmitRunRequest)
    (h : SubmitRunRequest.validate r = Except.ok q) :
    (∀ t, q.text_form = some t →
      List.lookup "text_form" (prepare_submit_run_payload q).data = some t ∧
      (prepare_submit_run_payload q).files = []) ∧
    (∀ b, q.file = some b →
      List.lookup "file" (prepare_submit_run_payload q).files = some ("solution", b) ∧
      List.lookup "text_form" (prepare_submit_run_payload q).data = none) ∧
    List.lookup "action" (prepare_submit_run_payload q).data = none := by
  obtain ⟨heq, hsel⟩ := SubmitRunRequest.validate_ok_inv h
  have hrest1 : List.lookup "text_form" (submitRunRest q) = none := by
    simp [submitRunRest, lookup_append, lookup_optEntry, lookup_reqEntry]
  have hrest2 : List.lookup "action" (submitRunRest q) = none := by
    simp [submitRunRest, lookup_append, lookup_optEntry, lookup_reqEntry]
  refine ⟨?_, ?_, ?_⟩
  · intro t ht
    have hfile : q.file = none := by
      rw [ht] at hsel
      cases hf : q.file with
      | none => rfl
      | some b => rw [hf] at hsel; simp at hsel
    constructor
    · simp [prepare_submit_run_payload, ht, List.lookup]
    · simp [prepare_submit_run_payload, hfile]
  · intro b hb
    have htext : q.text_form = none := by
      rw [hb] at hsel
      cases hf : q.text_form with
      | none => rfl
      | some t => rw [hf] at hsel; simp at hsel
    constructor
    · simp [prepare_submit_run_payload, hb, List.lookup]
    · rw [show (prepare_submit_run_payload q).data
          = (match q.text_form with
             | none => []
             | some t => [("text_form", t)]) ++ submitRunRest q from rfl, htext]
      simpa using hrest1
  · rw [show (prepare_submit_run_payload q).data
        = (match q.text_form with
           | none => []
           | some t => [("text_form", t)]) ++ submitRunRest q from rfl]
    rw [lookup_append, hrest2]
    cases q.text_form <;> simp [List.lookup]

/-- Witness for C2 at a concrete validated text-source request. -/
theorem claim_C2_witness :
    List.lookup "text_form"
        (prepare_submit_run_payload
          { contest_id := 1, problem := some 5, lang_id := some (Sum.inl 2),
            text_form := some "x" }).data = some "x" ∧
    (prepare_submit_run_payload
      { contest_id := 1, problem := some 5, lang_id := some (Sum.inl 2),
        text_form := some "x" }).files = [] :=
  (claim_C2_submit_run_payload
    { contest_id := 1, problem := some 5, lang_id := some (Sum.inl 2),
      text_form := some "x" }
    { contest_id := 1, problem := some 5, lang_id := some (Sum.inl 2),
      text_form := some "x" }
    (by rfl)).1 "x" rfl

/-- C9: every outbound request of the four client operations carries the
query parameters `json=1` and `action=<the request's action>` and an
`Authorization` header equal to `Bearer AQAA` followed by the API
token. -/
theorem claim_C9_query_params_and_auth_header (api_token : String)
    (r1 : SubmitRunRequest) (r2 : SubmitRunInputRequest)
    (r3 : GetSubmitRequest) (r4 : GetUserRequest) :
    (List.lookup "json" (submitRunOutbound (EjudgeClient.make api_token) r1).params
        = some "1" ∧
      List.lookup "action" (submitRunOutbound (EjudgeClient.make api_token) r1).params
        = some "submit-run" ∧
      (submitRunOutbound (EjudgeClient.make api_token) r1).headers
        = [("Authorization", "Bearer AQAA" ++ api_token)]) ∧
    (List.lookup "json" (submitRunInputOutbound (EjudgeClient.make api_token) r2).params
        = some "1" ∧
      List.lookup "action" (submitRunInputOutbound (EjudgeClient.make api_token) r2).params
        = some "submit-run-input" ∧
      (submitRunInputOutbound (EjudgeClient.make api_token) r2).headers
        = [("Authorization", "Bearer AQAA" ++ api_token)]) ∧
    (List.lookup "json" (getSubmitOutbound (EjudgeClient.make api_token) r3).params
        = some "1" ∧
      List.lookup "action" (getSubmitOutbound (EjudgeClient.make api_token) r3).params
        = some "get-submit" ∧
      (getSubmitOutbound (EjudgeClient.make api_token) r3).headers
        = [("Authorization", "Bearer AQAA" ++ api_token)]) ∧
    (List.lookup "json" (getUserOutbound (EjudgeClient.make api_token) r4).params
        = some "1" ∧
      List.lookup "action" (getUserOutbound (EjudgeClient.make api_token) r4).params
        = some "get-user" ∧
      (getUserOutbound (EjudgeClient.make api_token) r4).headers
        = [("Authorization", "Bearer AQAA" ++ api_token)]) := by
  refine ⟨⟨rfl, rfl, rfl⟩, ⟨rfl, rfl, rfl⟩, ⟨rfl, rfl, rfl⟩, ?_, ?_, rfl⟩
  · rcases r4 with ⟨c, ou, ol, g⟩
    cases ou <;> cases ol <;> cases g <;> rfl
  · rcases r4 with ⟨c, ou, ol, g⟩
    cases ou <;> cases ol <;> cases g <;> rfl

/-- Inversion of a successful `GetUserRequest` construction. -/
theorem GetUserRequest.validate_ok_login_stripped {r q : GetUserRequest}
    (h : GetUserRequest.validate r = Except.ok q) :
    q = { r with other_user_login := r.other_user_login.map strip } := by
  simp only [GetUserRequest.validate] at h
  split_ifs at h <;> try exact Except.noConfusion h
  simp only [Except.ok.injEq] at h
  exact h.symm

/-- Inversion of a successful `UserCookie` validation. -/
theorem UserCookie.validate_ok_cookie_inv {fields : List (String × Json)} {m : UserCookie}
    (h : UserCookie.validate (Json.jobj fields) = Except.ok m) :
    m = UserCookie.extract fields := by
  simp only [UserCookie.validate] at h
  split_ifs at h <;> try exact Except.noConfusion h
  simp only [Except.ok.injEq] at h
  exact h.symm

/-- Inversion of a successful `UserInfo` validation. -/
theorem UserInfo.validate_ok_info_inv {fields : List (String × Json)} {m : UserInfo}
    (h : UserInfo.validate (Json.jobj fields) = Except.ok m) :
    m = UserInfo.extract fields := by
  simp only [UserInfo.validate] at h
  split_ifs at h <;> try exact Except.noConfusion h
  simp only [Except.ok.injEq] at h
  exact h.symm

/-- Inversion of a successful `UserProfile` validation. -/
theorem UserProfile.validate_ok_profile_inv {fields : List (String × Json)} {m : UserProfile}
    (h : UserProfile.validate (Json.jobj fields) = Except.ok m) :
    ∃ uid login, List.lookup "user_id" fields = some (Json.jnum uid) ∧
      List.lookup "user_login" fields = some (Json.jstr login) ∧
      m = UserProfile.extract fields uid login := by
  simp only [UserProfile.validate] at h
  split_ifs at h <;> try exact Except.noConfusion h
  rcases h1 : List.lookup "user_id" fields with _ | j1 <;> rw [h1] at h <;>
    try exact Except.noConfusion h
  cases j1 <;> try exact Except.noConfusion h
  rcases h2 : List.lookup "user_login" fields with _ | j2 <;> rw [h2] at h <;>
    try exact Except.noConfusion h
  cases j2 <;> try exact Except.noConfusion h
  dsimp only at h
  split_ifs at h <;> try exact Except.noConfusion h
  simp only [Except.ok.injEq] at h
  exact ⟨_, _, rfl, rfl, h.symm⟩

/-- Inversion of a successful `SubmitDetails` validation. -/
theorem SubmitDetails.validate_ok_details_inv {fields : List (String × Json)} {m : SubmitDetails}
    (h : SubmitDetails.validate (Json.jobj fields) = Except.ok m) :
    ∃ sid uid pid lid st sstr,
      List.lookup "status_str" fields = some (Json.jstr sstr) ∧
      m = SubmitDetails.extract fields sid uid pid lid st sstr := by
  simp only [SubmitDetails.validate] at h
  split_ifs at h <;> try exact Except.noConfusion h
  rcases h1 : List.lookup "submit_id" fields with _ | j1 <;> rw [h1] at h <;>
    try exact Except.noConfusion h
  cases j1 <;> try exact Except.noConfusion h
  rcases h2 : List.lookup "user_id" fields with _ | j2 <;> rw [h2] at h <;>
    try exact Except.noConfusion h
  cases j2 <;> try exact Except.noConfusion h
  rcases h3 : List.lookup "prob_id" fields with _ | j3 <;> rw [h3] at h <;>
    try exact Except.noConfusion h
  cases j3 <;> try exact Except.noConfusion h
  rcases h4 : List.lookup "lang_id" fields with _ | j4 <;> rw [h4] at h <;>
    try exact Except.noConfusion h
  cases j4 <;> try exact Except.noConfusion h
  rcases h5 : List.lookup "status" fields with _ | j5 <;> rw [h5] at h <;>
    try exact Except.noConfusion h
  cases j5 <;> try exact Except.noConfusion h
  rcases h6 : List.lookup "status_str" fields with _ | j6 <;> rw [h6] at h <;>
    try exact Except.noConfusion h
  cases j6 <;> try exact Except.noConfusion h
  dsimp only at h
  split_ifs at h <;> try exact Except.noConfusion h
  simp only [Except.ok.injEq] at h
  exact ⟨_, _, _, _, _, _, rfl, h.symm⟩

/-- The stored value of an optional string field is the whitespace-strip
of the supplied string. -/
def storesStripped (fields : List (String × Json)) (k : String)
    (v : Option String) : Prop :=
  ∀ s, optField fields k = some (Json.jstr s) → v = some (strip s)

/-- The stored value of a required string field is the whitespace-strip
of the supplied string. -/
def storesStrippedReq (fields : List (String × Json)) (k : String)
    (v : String) : Prop :=
  ∀ s, List.lookup k fields = some (Json.jstr s) → v = strip s

/-- A validated error block stores the `message` field stripped. -/
theorem EjudgeError.validate_message_stripped {fields : List (String × Json)}
    {e : EjudgeError} {s : String}
    (hv : EjudgeError.validate (Json.jobj fields) = Except.ok e)
    (hs : optField fields "message" = some (Json.jstr s)) : e.message = some (strip s) := by
  simp only [EjudgeError.validate] at hv
  split_ifs at hv <;> try exact Except.noConfusion hv
  rcases hn : List.lookup "num" fields with _ | jn <;> rw [hn] at hv <;>
    try exact Except.noConfusion hv
  cases jn <;> try exact Except.noConfusion hv
  rcases hsym : List.lookup "symbol" fields with _ | jsym <;> rw [hsym] at hv <;>
    try exact Except.noConfusion hv
  cases jsym <;> try exact Except.noConfusion hv
  rw [show parseOptStrField fields "message" = Except.ok (some (strip s)) from by
    simp [parseOptStrField, hs]] at hv
  simp only [Except.ok.injEq] at hv
  rw [← hv]

/-- A validated error block stores the `symbol` field stripped. -/
theorem EjudgeError.validate_symbol_stripped {fields : List (String × Json)}
    {e : EjudgeError} {s : String}
    (hv : EjudgeError.validate (Json.jobj fields) = Except.ok e)
    (hs : List.lookup "symbol" fields = some (Json.jstr s)) : e.symbol = strip s := by
  simp only [EjudgeError.validate] at hv
  split_ifs at hv <;> try exact Except.noConfusion hv
  rw [hs] at hv
  rcases hn : List.lookup "num" fields with _ | jn <;> rw [hn] at hv <;>
    try exact Except.noConfusion hv
  cases jn <;> try exact Except.noConfusion hv
  rcases hm : parseOptStrField fields "message" with em | m <;> rw [hm] at hv <;>
    try exact Except.noConfusion hv
  simp only [Except.ok.injEq] at hv
  rw [← hv]

/-- A validated reply envelope stores the `action` field stripped. -/
theorem validateReply_action_stripped {ρ : Type} (vr : Json → Except String ρ)
    {fields : List (String × Json)} {rep : Reply ρ} {a : String}
    (hv : validateReply vr (Json.jobj fields) = Except.ok rep)
    (ha : List.lookup "action" fields = some (Json.jstr a)) : rep.action = strip a := by
  simp only [validateReply] at hv
  split_ifs at hv <;> try exact Except.noConfusion hv
  rw [ha] at hv
  rcases hok : List.lookup "ok" fields with _ | jv <;> rw [hok] at hv <;>
    try exact Except.noConfusion hv
  cases jv <;> try exact Except.noConfusion hv
  rcases h1 : parseOptIntField fields "server_time" with e1 | st <;> rw [h1] at hv <;>
    try exact Except.noConfusion hv
  rcases h2 : parseOptIntField fields "reply_id" with e2 | rid <;> rw [h2] at hv <;>
    try exact Except.noConfusion hv
  rcases h3 : parseOptIntField fields "request_id" with e3 | qid <;> rw [h3] at hv <;>
    try exact Except.noConfusion hv
  rcases h4 : (match optField fields "result" with
               | none => Except.ok none
               | some j => Except.map some (vr j)) with e4 | res <;> rw [h4] at hv <;>
    try exact Except.noConfusion hv
  rcases h5 : (match optField fields "error" with
               | none => Except.ok none
               | some j => Except.map some (EjudgeError.validate j)) with e5 | err <;>
    rw [h5] at hv <;> try exact Except.noConfusion hv
  simp only [Except.ok.injEq] at hv
  rw [← hv]

/-- C10: every string-typed field of every model derived from the shared
ejudge base is stored whitespace-trimmed after construction — not only
the notification queue identifier.  The conjuncts cover every
string-typed field of `SubmitRunRequest`, `SubmitRunInputRequest`
(including the `str` branches of the `int | str` unions),
`NotificationTarget`, `GetUserRequest`, `EjudgeError`, the reply envelope
(`action`), `SubmitDetails`, `UserProfile`, `UserCookie` and `UserInfo`.
The remaining base-derived models — `GetSubmitRequest`,
`SubmitRunResult`, `SubmitRunInputResult` and `UserContestState` — have
no string-typed field (`run_uuid` is UUID-typed, `problem_uuid` and
`sender_ip` are UUID/IP-typed), so the claim is vacuous for them. -/
theorem claim_C10_string_fields_trimmed :
    (∀ r q : SubmitRunRequest, SubmitRunRequest.validate r = Except.ok q →
      q.sender_user_login = r.sender_user_login.map strip ∧
      q.problem_name = r.problem_name.map strip ∧
      q.language_name = r.language_name.map strip ∧
      q.lang_id = r.lang_id.map (Sum.map id strip) ∧
      q.text_form = r.text_form.map strip ∧
      q.ext_user_kind = r.ext_user_kind.map strip ∧
      q.ext_user = r.ext_user.map strip ∧
      q.notify_queue = r.notify_queue.map strip) ∧
    (∀ r q : SubmitRunInputRequest, SubmitRunInputRequest.validate r = Except.ok q →
      q.sender_user_login = r.sender_user_login.map strip ∧
      q.prob_id = Sum.map id strip r.prob_id ∧
      q.lang_id = Sum.map id strip r.lang_id ∧
      q.text_form = r.text_form.map strip ∧
      q.text_form_input = r.text_form_input.map strip ∧
      q.ext_user_kind = r.ext_user_kind.map strip ∧
      q.ext_user = r.ext_user.map strip ∧
      q.notify_queue = r.notify_queue.map strip) ∧
    (∀ t u : NotificationTarget, NotificationTarget.validate t = Except.ok u →
      u.queue = strip t.queue) ∧
    (∀ r q : GetUserRequest, GetUserRequest.validate r = Except.ok q →
      q.other_user_login = r.other_user_login.map strip) ∧
    (∀ (fields : List (String × Json)) (e : EjudgeError) (s : String),
      EjudgeError.validate (Json.jobj fields) = Except.ok e →
      List.lookup "symbol" fields = some (Json.jstr s) → e.symbol = strip s) ∧
    (∀ (fields : List (String × Json)) (rep : Reply SubmitRunResult) (a : String),
      validateReply SubmitRunResult.validate (Json.jobj fields) = Except.ok rep →
      List.lookup "action" fields = some (Json.jstr a) → rep.action = strip a) ∧
    (∀ (fields : List (String × Json)) (e : EjudgeError) (s : String),
      EjudgeError.validate (Json.jobj fields) = Except.ok e →
      optField fields "message" = some (Json.jstr s) → e.message = some (strip s)) ∧
    (∀ (fields : List (String × Json)) (m : SubmitDetails),
      SubmitDetails.validate (Json.jobj fields) = Except.ok m →
      storesStrippedReq fields "status_str" m.status_str ∧
      storesStripped fields "ext_user_kind" m.ext_user_kind ∧
      storesStripped fields "ext_user" m.ext_user ∧
      storesStripped fields "notify_queue" m.notify_queue ∧
      storesStripped fields "compiler_output" m.compiler_output ∧
      storesStripped fields "test_checker_output" m.test_checker_output ∧
      storesStripped fields "input" m.input ∧
      storesStripped fields "output" m.output ∧
      storesStripped fields "error" m.error) ∧
    (∀ (fields : List (String × Json)) (m : UserProfile),
      UserProfile.validate (Json.jobj fields) = Except.ok m →
      storesStrippedReq fields "user_login" m.user_login ∧
      storesStripped fields "email" m.email) ∧
    (∀ (fields : List (String × Json)) (m : UserCookie),
      UserCookie.validate (Json.jobj fields) = Except.ok m →
      storesStripped fields "client_key" m.client_key ∧
      storesStripped fields "cookie" m.cookie ∧
      storesStripped fields "ip" m.ip) ∧
    (∀ (fields : List (String × Json)) (m : UserInfo),
      UserInfo.validate (Json.jobj fields) = Except.ok m →
      storesStripped fields "city" m.city ∧
      storesStripped fields "city_en" m.city_en ∧
      storesStripped fields "area" m.area ∧
      storesStripped fields "phone" m.phone ∧
      storesStripped fields "school" m.school ∧
      storesStripped fields "grade" m.grade) := by
  refine ⟨?_, ?_, ?_, ?_, ?_, ?_, ?_, ?_, ?_, ?_, ?_⟩
  · intro r q h
    rw [(SubmitRunRequest.validate_ok_inv h).1]
    exact ⟨rfl, rfl, rfl, rfl, rfl, rfl, rfl, rfl⟩
  · intro r q h
    rw [SubmitRunInputRequest.validate_ok_stripped_eq h]
    exact ⟨rfl, rfl, rfl, rfl, rfl, rfl, rfl, rfl⟩
  · intro t u h
    have hstep : ∀ u2, NotificationTarget.validate t = Except.ok u2 →
        u2.queue = strip t.queue ∧ u2.queue ≠ "" := by
      intro u2 h2
      simp only [NotificationTarget.validate] at h2
      split_ifs at h2 with g1 g2 g3 g4 <;> try exact Except.noConfusion h2
      simp only [Except.ok.injEq] at h2
      subst h2
      exact ⟨strip_idem t.queue, g4⟩
    exact (hstep u h).1
  · intro r q h
    rw [GetUserRequest.validate_ok_login_stripped h]
  · intro fields e s hv hs
    exact EjudgeError.validate_symbol_stripped hv hs
  · intro fields rep a hv ha
    exact validateReply_action_stripped SubmitRunResult.validate hv ha
  · intro fields e s hv hs
    exact EjudgeError.validate_message_stripped hv hs
  · intro fields m h
    obtain ⟨sid, uid, pid, lid, st, sstr, hs6, hm⟩ := SubmitDetails.validate_ok_details_inv h
    subst hm
    refine ⟨?_, ?_, ?_, ?_, ?_, ?_, ?_, ?_, ?_⟩
    · intro s hs
      rw [hs6] at hs
      simp only [Option.some.injEq, Json.jstr.injEq] at hs
      subst hs
      rfl
    all_goals intro s hs
    all_goals simp [SubmitDetails.extract, optStrOf, hs]
  · intro fields m h
    obtain ⟨uid, login, hu, hl, hm⟩ := UserProfile.validate_ok_profile_inv h
    subst hm
    constructor
    · intro s hs
      rw [hl] at hs
      simp only [Option.some.injEq, Json.jstr.injEq] at hs
      subst hs
      rfl
    · intro s hs
      simp [UserProfile.extract, optStrOf, hs]
  · intro fields m h
    rw [UserCookie.validate_ok_cookie_inv h]
    refine ⟨?_, ?_, ?_⟩
    all_goals intro s hs
    all_goals simp [UserCookie.extract, optStrOf, hs]
  · intro fields m h
    rw [UserInfo.validate_ok_info_inv h]
    refine ⟨?_, ?_, ?_, ?_, ?_, ?_⟩
    all_goals intro s hs
    all_goals simp [UserInfo.extract, optStrOf, hs]

/-- Witness for C10: a padded notification queue identifier is stored
trimmed. -/
theorem claim_C10_witness :
    (⟨1, NotificationKind.u64, "padded"⟩ : NotificationTarget).queue = strip " padded " :=
  claim_C10_string_fields_trimmed.2.2.1 ⟨1, NotificationKind.u64, " padded "⟩
    ⟨1, NotificationKind.u64, "padded"⟩ (by rfl)

/-- C7 counterexample: an envelope with `ok = true` that carries an error
block and no result is accepted by reply validation, so `ok = true` does
not imply that the error block is absent, nor that the result is
present. -/
theorem claim_C7_counterexample :
    validateReply SubmitRunResult.validate
        (Json.jobj [("ok", Json.jbool true), ("action", Json.jstr "submit-run"),
          ("error", Json.jobj [("num", Json.jnum 5), ("symbol", Json.jstr "oops")])])
      = Except.ok (⟨true, "submit-run", none, none, none, none,
          some ⟨5, "oops", none⟩⟩ : Reply SubmitRunResult) := by rfl

/-- C7 (amended): reply validation does not couple `ok` with `result` and
`error` (an `ok = true` envelope may carry an error block and lack a
result); the invariant that does hold is that for every validated
envelope with `ok = false` the raised `ReplyError` carries a typed error
block — the envelope's own, or the synthesized sentinel with code `-1`
and symbol `"unknown"` when the envelope has none. -/
theorem claim_C7_error_block_present_or_synthesized {ρ : Type}
    (vr : Json → Except String ρ) (body : Json) (rep : Reply ρ)
    (hv : validateReply vr body = Except.ok rep) (hok : rep.ok = false) :
    ∃ e, mkReplyError rep = ClientFailure.replyError rep (replyErrorMessage e) ∧
      (rep.error = some e ∨
        (rep.error = none ∧ e = fallbackError ∧ e.num = -1 ∧ e.symbol = "unknown")) := by
  cases he : rep.error with
  | none =>
    refine ⟨fallbackError, ?_, Or.inr ⟨rfl, rfl, rfl, rfl⟩⟩
    unfold mkReplyError
    rw [he]
    rfl
  | some e =>
    refine ⟨e, ?_, Or.inl rfl⟩
    unfold mkReplyError
    rw [he]
    rfl

/-- Witness for C7 (amended) at the concrete envelope
`{"ok": false, "action": "submit-run"}`. -/
theorem claim_C7_witness :
    ∃ e, mkReplyError (⟨false, "submit-run", none, none, none, none, none⟩
          : Reply SubmitRunResult)
        = ClientFailure.replyError ⟨false, "submit-run", none, none, none, none, none⟩
            (replyErrorMessage e) ∧
      ((⟨false, "submit-run", none, none, none, none, none⟩
          : Reply SubmitRunResult).error = some e ∨
        ((⟨false, "submit-run", none, none, none, none, none⟩
            : Reply SubmitRunResult).error = none ∧ e = fallbackError ∧ e.num = -1
          ∧ e.symbol = "unknown")) :=
  claim_C7_error_block_present_or_synthesized SubmitRunResult.validate
    (Json.jobj [("ok", Json.jbool false), ("action", Json.jstr "submit-run")])
    ⟨false, "submit-run", none, none, none, none, none⟩ (by rfl) (by rfl)

/-- Decode-encode inverse for helper-built `submit-run` success replies:
validating the dumped JSON of `make_submit_run_reply` returns the original
model instance. -/
theorem validateReply_dump_make_submit_run_reply (run_id : Int)
    (run_uuid : Option String) (h : 0 < run_id) :
    validateReply SubmitRunResult.validate
        (Reply.dumpJson SubmitRunResult.dumpJson (make_submit_run_reply run_id run_uuid))
      = Except.ok (make_submit_run_reply run_id run_uuid) := by
  cases run_uuid with
  | none =>
    simp [validateReply, Reply.dumpJson, SubmitRunResult.dumpJson, make_submit_run_reply,
      SubmitRunResult.validate, keysAllowed, optField, parseOptIntField, jsonOptEntry,
      List.lookup, h]
    rfl
  | some u =>
    simp [validateReply, Reply.dumpJson, SubmitRunResult.dumpJson, make_submit_run_reply,
      SubmitRunResult.validate, keysAllowed, optField, parseOptIntField, jsonOptEntry,
      List.lookup, h]
    rfl

/-- C4: a success reply envelope built by the `make_submit_run_reply` test
helper, registered with the mock transport, comes back from the
`submit_run` client operation as a decoded reply equal to the original
model instance. -/
theorem claim_C4_mock_round_trip (api_token : String) (req : SubmitRunRequest)
    (run_id : Int) (run_uuid : Option String) (hrun : 0 < run_id) :
    EjudgeClient.submit_run (EjudgeClient.make api_token)
        (mockTransport [("submit-run",
          coerce_payload_model
            (Reply.dumpJson SubmitRunResult.dumpJson
              (make_submit_run_reply run_id run_uuid)))])
        req
      = Except.ok (make_submit_run_reply run_id run_uuid) := by
  have htrans : mockTransport [("submit-run",
        coerce_payload_model
          (Reply.dumpJson SubmitRunResult.dumpJson (make_submit_run_reply run_id run_uuid)))]
        (submitRunOutbound (EjudgeClient.make api_token) req)
      = TransportOutcome.response ⟨200, some (Reply.dumpJson SubmitRunResult.dumpJson
          (make_submit_run_reply run_id run_uuid))⟩ := by
    rfl
  unfold EjudgeClient.submit_run
  rw [htrans]
  unfold performAction ejudgeRequest
  dsimp only
  rw [if_pos (by omega)]
  unfold parseReply
  dsimp only
  rw [validateReply_dump_make_submit_run_reply run_id run_uuid hrun]
  rfl

/-- Witness for C4 at a concrete helper reply with `run_id = 100`. -/
theorem claim_C4_witness :
    EjudgeClient.submit_run (EjudgeClient.make "token")
        (mockTransport [("submit-run",
          coerce_payload_model
            (Reply.dumpJson SubmitRunResult.dumpJson (make_submit_run_reply 100 none)))])
        { contest_id := 1, problem := some 5, lang_id := some (Sum.inl 2),
          text_form := some "x" }
      = Except.ok (make_submit_run_reply 100 none) :=
  claim_C4_mock_round_trip "token"
    { contest_id := 1, problem := some 5, lang_id := some (Sum.inl 2),
      text_form := some "x" }
    100 none (by decide)

end Ejudge
